import Mathlib

/-! # X Render backend of unagi (src/rendering/render.c)

A shallow embedding of the Render backend: the diagnostic label tables and
lookups, the backend state `_render_conf`, the per-window state
`_render_window_t`, and the operations that send requests on the X
connection.  The connection is modelled by what the backend can observe of
it: the stream of resource ids `xcb_generate_id` hands out and the list of
requests sent so far, oldest first.

Conventions of the embedding.
* `NULL` results that the source tests become `Option`; `assert` becomes an
  `Option` result (`none` when the assertion fails).
* A pointer the source dereferences without a test (the window's geometry,
  the catalog entry of a window's visual, the extension data after
  initialisation) is taken to be valid, and the pointee is read directly.
* Machine integers are `Nat`/`Int`; the only place where the source narrows
  a value, the `(uint16_t)` casts of the composite size, is an explicit
  `% 65536`.
* Constants of the X protocol headers (`XCB_NONE`, the picture operators,
  the value-mask bits, the Render error numbers) carry their protocol
  values.
-/

namespace Unagi

/-! ## Protocol constants (xcb/xproto.h, xcb/render.h) -/

def XCB_NONE : Nat := 0
def UINT16_MAX : Nat := 65535
def XCB_RENDER_MAJOR_VERSION : Nat := 0
def XCB_RENDER_MINOR_VERSION : Nat := 11
def XCB_RENDER_PICT_OP_SRC : Nat := 1
def XCB_RENDER_PICT_OP_OVER : Nat := 3
def XCB_RENDER_CP_REPEAT : Nat := 1
def XCB_RENDER_CP_SUBWINDOW_MODE : Nat := 256
def XCB_SUBWINDOW_MODE_CLIP_BY_CHILDREN : Nat := 0
def XCB_SUBWINDOW_MODE_INCLUDE_INFERIORS : Nat := 1
def XCB_RENDER_PICT_FORMAT : Int := 0
def XCB_RENDER_GLYPH : Int := 4

/-! ## Diagnostic tables -/

/-- Request labels of the Render extension, indexed by minor opcode. -/
def _render_request_label : List String := [
  "RenderQueryVersion",
  "RenderQueryPictFormats",
  "RenderQueryPictIndexValues",
  "Render minor 3",
  "RenderCreatePicture",
  "RenderChangePicture",
  "RenderSetPictureClipRectangles",
  "RenderFreePicture",
  "RenderComposite",
  "Render minor 9",
  "RenderTrapezoids",
  "RenderTriangles",
  "RenderTriStrip",
  "RenderTriFan",
  "Render minor 14",
  "Render minor 15",
  "Render minor 16",
  "RenderCreateGlyphSet",
  "RenderReferenceGlyphSet",
  "RenderFreeGlyphSet",
  "RenderAddGlyphs",
  "Render minor 21",
  "RenderFreeGlyphs",
  "RenderCompositeGlyphs8",
  "RenderCompositeGlyphs16",
  "RenderCompositeGlyphs32",
  "RenderFillRectangles",
  "RenderCreateCursor",
  "RenderSetPictureTransform",
  "RenderQueryFilters",
  "RenderSetPictureFilter",
  "RenderCreateAnimCursor",
  "RenderAddTraps",
  "RenderCreateSolidFill",
  "RenderCreateLinearGradient",
  "RenderCreateRadialGradient",
  "RenderCreateConicalGradient"
]

/-- Error labels of the Render extension, indexed by the error code relative
to the first error of the extension. -/
def _render_error_label : List String := [
  "PictFormat",
  "Picture",
  "PictOp",
  "GlyphSet",
  "Glyph"
]

/-- The number of elements of an array (the `countof` helper of util.h). -/
def countof {α : Type} (xs : List α) : Nat := xs.length

/-! ## Data model -/

/-- The fields of `xcb_query_extension_reply_t` the backend reads. -/
structure xcb_query_extension_reply_t where
  present : Bool
  major_opcode : Nat
  first_error : Nat
deriving DecidableEq, Repr

/-- One entry of the visual-to-format table. -/
structure xcb_render_pictvisual_t where
  visual : Nat
  format : Nat
deriving DecidableEq, Repr

/-- The reply to QueryPictFormats, as far as the backend reads it through
xcb and xcb-util-renderutil. -/
structure xcb_render_query_pict_formats_reply_t where
  /-- The value of `xcb_render_query_pict_formats_formats_length`. -/
  formats_length : Nat
  /-- The result of `xcb_render_util_find_visual_format` for a visual, where
  the source tests it; `none` is `NULL`. -/
  find_visual_format : Nat → Option xcb_render_pictvisual_t
  /-- The field `xcb_render_util_find_visual_format(..., visual)->format`,
  where the source reads it without testing the pointer. -/
  visual_format : Nat → Nat
  /-- The field `xcb_render_util_find_standard_format(...,
  XCB_PICT_STANDARD_A_8)->id`. -/
  standard_a8_id : Nat

/-- The fields of `xcb_render_query_version_reply_t`. -/
structure xcb_render_query_version_reply_t where
  major_version : Nat
  minor_version : Nat
deriving DecidableEq, Repr

/-- The fields of the screen (`globalconf.screen`) the backend reads. -/
structure xcb_screen_t where
  root : Nat
  root_visual : Nat
  root_depth : Nat
  width_in_pixels : Nat
  height_in_pixels : Nat
deriving DecidableEq, Repr

structure xcb_render_color_t where
  red : Nat
  green : Nat
  blue : Nat
  alpha : Nat
deriving DecidableEq, Repr

structure xcb_rectangle_t where
  x : Int
  y : Int
  width : Nat
  height : Nat
deriving DecidableEq, Repr

/-- The requests the backend and its collaborators send. -/
inductive xcb_request where
  | render_query_version (client_major client_minor : Nat)
  | render_query_pict_formats
  | get_root_background_pixmap
  | render_create_picture (pid drawable format value_mask : Nat)
      (value_list : List Nat)
  | render_free_picture (picture : Nat)
  | render_composite (op src mask dst : Nat)
      (src_x src_y mask_x mask_y dst_x dst_y : Int) (width height : Nat)
  | render_fill_rectangles (op dst : Nat) (color : xcb_render_color_t)
      (rects : List xcb_rectangle_t)
  | create_pixmap (depth pid drawable width height : Nat)
  | free_pixmap (pixmap : Nat)
deriving DecidableEq, Repr

/-- The X connection as the backend observes it. -/
structure xcb_connection_t where
  /-- The ids `xcb_generate_id` returns, in the order of the calls. -/
  ids : Nat → Nat
  /-- How many ids have been handed out. -/
  next : Nat
  /-- The requests sent so far, oldest first. -/
  out : List xcb_request

/-- The call `xcb_generate_id`. -/
def xcb_generate_id (c : xcb_connection_t) : Nat × xcb_connection_t :=
  (c.ids c.next, { c with next := c.next + 1 })

/-- Sending one request. -/
def xcb_send (c : xcb_connection_t) (r : xcb_request) : xcb_connection_t :=
  { c with out := c.out ++ [r] }

/-- Information related to Render (the static `_render_conf`), with the two
request cookies of the initialisation. -/
structure _render_conf_t where
  ext : xcb_query_extension_reply_t
  picture : Nat
  buffer_picture : Nat
  background_picture : Nat
  pict_formats : xcb_render_query_pict_formats_reply_t
  pictvisual : xcb_render_pictvisual_t
  _render_version_cookie : Nat
  _render_pict_formats_cookie : Nat

/-- Information related to Render specific to windows. -/
structure _render_window_t where
  picture : Nat
  alpha_picture : Nat
deriving DecidableEq, Repr

/-- The fields of `xcb_get_geometry_reply_t` the backend reads. -/
structure xcb_get_geometry_reply_t where
  x : Int
  y : Int
  width : Nat
  height : Nat
  border_width : Nat
deriving DecidableEq, Repr

/-- The fields of a window (window.h) the backend reads or writes;
`rendering` is `none` for the `NULL` pointer, and `visual` stands for
`attributes->visual`. -/
structure window_t where
  id : Nat
  visual : Nat
  geometry : xcb_get_geometry_reply_t
  pixmap : Nat
  rendering : Option _render_window_t
deriving DecidableEq, Repr

/-- The hook table of a plugin (plugin.h); `none` is a `NULL` function
pointer. -/
structure plugin_vtable_t where
  window_get_opacity : Option (window_t → Nat)

structure plugin_t where
  vtable : plugin_vtable_t

/-! ## Diagnostic decoder -/

/-- Get the request label from the given minor opcode; `none` is `NULL`. -/
def render_error_get_request_label (request_minor_code : Nat) : Option String :=
  if h : request_minor_code < countof _render_request_label then
    some (_render_request_label.get ⟨request_minor_code, h⟩)
  else none

/-- Get the error label associated with the given error code; `none` is
`NULL`.  The difference is computed in `int`, as the source does. -/
def render_error_get_error_label (conf : _render_conf_t) (error_code : Nat) :
    Option String :=
  let render_error : Int := (error_code : Int) - (conf.ext.first_error : Int)
  if h : render_error < XCB_RENDER_PICT_FORMAT ∨ render_error > XCB_RENDER_GLYPH then
    none
  else
    some (_render_error_label.get ⟨render_error.toNat, by
      simp only [XCB_RENDER_PICT_FORMAT, XCB_RENDER_GLYPH, not_or, not_lt] at h
      simp only [_render_error_label, List.length_cons, List.length_nil]
      omega⟩)

/-- Check whether the given request major opcode is from Render. -/
def render_is_request (conf : _render_conf_t) (request_major_code : Nat) : Bool :=
  conf.ext.major_opcode == request_major_code

/-! ## Collaborators of window.c -/

/-- Modelled from the spec: `window_get_root_background_pixmap` is defined in
window.c, which is not among the sources.  It is the "fetch candidate
background drawable" call, which only issues the asynchronous query. -/
def window_get_root_background_pixmap (c : xcb_connection_t) : xcb_connection_t :=
  xcb_send c .get_root_background_pixmap

/-- Modelled from the spec: `window_new_root_background_pixmap` is defined in
window.c, which is not among the sources.  It is the "allocate a throwaway
default background drawable" call: a fresh id naming a minimal drawable of
the root depth. -/
def window_new_root_background_pixmap (screen : xcb_screen_t)
    (c : xcb_connection_t) : Nat × xcb_connection_t :=
  let r := xcb_generate_id c
  (r.1, xcb_send r.2 (.create_pixmap screen.root_depth r.1 screen.root 1 1))

/-! ## Initialisation and the root pictures

The replies the server gives (`version_reply`, `pict_formats_reply`) and the
result of `window_get_root_background_pixmap_finalise`
(`root_background_pixmap`, `XCB_NONE` when there is no background image) are
inputs of the functions that consume them. -/

/-- Check whether the Render extension is present and send the two requests.
When the extension data is `NULL` the record keeps its previous `ext`.  The
sequence number of a cookie is the position of its request among the requests
sent, counted from 1. -/
def render_init (conf : _render_conf_t) (c : xcb_connection_t)
    (ext : Option xcb_query_extension_reply_t) :
    Bool × _render_conf_t × xcb_connection_t :=
  match ext with
  | none => (false, conf, c)
  | some e =>
    let conf := { conf with ext := e }
    if !e.present then (false, conf, c)
    else
      let c := xcb_send c
        (.render_query_version XCB_RENDER_MAJOR_VERSION XCB_RENDER_MINOR_VERSION)
      let conf := { conf with _render_version_cookie := c.out.length }
      let c := xcb_send c .render_query_pict_formats
      let conf := { conf with _render_pict_formats_cookie := c.out.length }
      (true, conf, window_get_root_background_pixmap c)

/-- Fill the root background with a color as there is no background image
available. -/
def _render_root_background_fill (screen : xcb_screen_t) (conf : _render_conf_t)
    (c : xcb_connection_t) : xcb_connection_t :=
  xcb_send c (.render_fill_rectangles XCB_RENDER_PICT_OP_SRC
    conf.background_picture ⟨0x8080, 0x8080, 0x8080, 0xffff⟩
    [⟨0, 0, screen.width_in_pixels, screen.height_in_pixels⟩])

/-- Paint the buffer Picture to the root Picture. -/
def _render_paint_root_buffer_to_root (screen : xcb_screen_t)
    (conf : _render_conf_t) (c : xcb_connection_t) : xcb_connection_t :=
  xcb_send c (.render_composite XCB_RENDER_PICT_OP_SRC conf.buffer_picture
    XCB_NONE conf.picture 0 0 0 0 0 0
    screen.width_in_pixels screen.height_in_pixels)

/-- Paint the background to the buffer Picture. -/
def _render_paint_root_background_to_buffer (screen : xcb_screen_t)
    (conf : _render_conf_t) (c : xcb_connection_t) : xcb_connection_t :=
  xcb_send c (.render_composite XCB_RENDER_PICT_OP_SRC conf.background_picture
    XCB_NONE conf.buffer_picture 0 0 0 0 0 0
    screen.width_in_pixels screen.height_in_pixels)

/-- Create the root background Picture associated with the background image
Pixmap if any, otherwise fill the background with a color. -/
def _render_init_root_background (screen : xcb_screen_t) (conf : _render_conf_t)
    (c : xcb_connection_t) (root_background_pixmap : Nat) :
    _render_conf_t × xcb_connection_t :=
  let root_background_fill : Bool := root_background_pixmap = XCB_NONE
  let p := if root_background_pixmap = XCB_NONE then
      window_new_root_background_pixmap screen c
    else (root_background_pixmap, c)
  let g := xcb_generate_id p.2
  let conf := { conf with background_picture := g.1 }
  let c := xcb_send g.2 (.render_create_picture conf.background_picture p.1
    conf.pictvisual.format XCB_RENDER_CP_REPEAT [1])
  if root_background_fill then
    (conf, _render_root_background_fill screen conf (xcb_send c (.free_pixmap p.1)))
  else (conf, c)

/-- Create the Picture associated with the root Window, its buffer and its
background, and paint it to the root Window.  The result is `none` when the
assertion on the cookie fails.  On the failing paths the record keeps the
previous value of a field where the source stores `NULL`. -/
def _render_init_root_picture (screen : xcb_screen_t) (conf : _render_conf_t)
    (c : xcb_connection_t)
    (pict_formats_reply : Option xcb_render_query_pict_formats_reply_t)
    (root_background_pixmap : Nat) :
    Option (Bool × _render_conf_t × xcb_connection_t) :=
  if conf._render_pict_formats_cookie = 0 then none
  else
    match pict_formats_reply with
    | none => some (false, conf, c)
    | some reply =>
      let conf := { conf with pict_formats := reply }
      if reply.formats_length = 0 then some (false, conf, c)
      else
        match reply.find_visual_format screen.root_visual with
        | none => some (false, conf, c)
        | some pictvisual =>
          let conf := { conf with pictvisual := pictvisual }
          -- the Picture associated with the root window
          let g := xcb_generate_id c
          let conf := { conf with picture := g.1 }
          let c := xcb_send g.2 (.render_create_picture conf.picture screen.root
            conf.pictvisual.format XCB_RENDER_CP_SUBWINDOW_MODE
            [XCB_SUBWINDOW_MODE_INCLUDE_INFERIORS])
          -- the buffer Picture
          let px := xcb_generate_id c
          let c := xcb_send px.2 (.create_pixmap screen.root_depth px.1 screen.root
            screen.width_in_pixels screen.height_in_pixels)
          let g := xcb_generate_id c
          let conf := { conf with buffer_picture := g.1 }
          let c := xcb_send g.2 (.render_create_picture conf.buffer_picture px.1
            conf.pictvisual.format 0 [])
          let c := xcb_send c (.free_pixmap px.1)
          -- the background Picture, painted to the buffer and to the root
          let b := _render_init_root_background screen conf c root_background_pixmap
          let c := _render_paint_root_background_to_buffer screen b.1 b.2
          let c := _render_paint_root_buffer_to_root screen b.1 c
          some (true, b.1, c)

/-- Last step of rendering backend initialisation.  The result is `none` when
an assertion on a cookie fails. -/
def render_init_finalise (screen : xcb_screen_t) (conf : _render_conf_t)
    (c : xcb_connection_t)
    (version_reply : Option xcb_render_query_version_reply_t)
    (pict_formats_reply : Option xcb_render_query_pict_formats_reply_t)
    (root_background_pixmap : Nat) :
    Option (Bool × _render_conf_t × xcb_connection_t) :=
  if conf._render_version_cookie = 0 then none
  else
    match version_reply with
    | none => some (false, conf, c)
    | some render_version_reply =>
      if render_version_reply.minor_version < 1 then some (false, conf, c)
      else _render_init_root_picture screen conf c pict_formats_reply
        root_background_pixmap

/-- Reset the background, used in case the root window is resized or the
root background image has changed. -/
def render_reset_background (screen : xcb_screen_t) (conf : _render_conf_t)
    (c : xcb_connection_t) (root_background_pixmap : Nat) :
    _render_conf_t × xcb_connection_t :=
  let c := xcb_send c (.render_free_picture conf.background_picture)
  let c := window_get_root_background_pixmap c
  _render_init_root_background screen conf c root_background_pixmap

/-- Paint the root background to the buffer Picture. -/
def render_paint_background (screen : xcb_screen_t) (conf : _render_conf_t)
    (c : xcb_connection_t) : xcb_connection_t :=
  _render_paint_root_background_to_buffer screen conf c

/-- Paint everything on the root Picture. -/
def render_paint_all (screen : xcb_screen_t) (conf : _render_conf_t)
    (c : xcb_connection_t) : xcb_connection_t :=
  _render_paint_root_buffer_to_root screen conf c

/-! ## Windows -/

/-- Create the alpha Picture associated with a window by only filling it
with the alpha channel value.  The first component is the value stored
through the `alpha_picture` pointer. -/
def _render_create_window_alpha_picture (screen : xcb_screen_t)
    (conf : _render_conf_t) (c : xcb_connection_t) (opacity : Nat) :
    Nat × xcb_connection_t :=
  let px := xcb_generate_id c
  let c := xcb_send px.2 (.create_pixmap 8 px.1 screen.root 1 1)
  let g := xcb_generate_id c
  let c := xcb_send g.2 (.render_create_picture g.1 px.1
    conf.pict_formats.standard_a8_id XCB_RENDER_CP_REPEAT [1])
  let c := xcb_send c (.render_fill_rectangles XCB_RENDER_PICT_OP_SRC g.1
    ⟨0, 0, 0, opacity⟩ [⟨0, 0, 1, 1⟩])
  (g.1, xcb_send c (.free_pixmap px.1))

/-- The condition of the opacity test of `render_paint_window`: `some v` when
the plugin was found, it has the `window_get_opacity` hook, and the hook
returns the 16-bit value `v` other than `UINT16_MAX`. -/
def window_opacity (opacity_plugin : Option plugin_t) (window : window_t) :
    Option Nat :=
  match opacity_plugin with
  | none => none
  | some p =>
    match p.vtable.window_get_opacity with
    | none => none
    | some f => if f window % 65536 ≠ UINT16_MAX then some (f window % 65536) else none

/-- Paint the window to the buffer Picture.  `opacity_plugin` is the result
of `plugin_search_by_name("opacity")`. -/
def render_paint_window (screen : xcb_screen_t) (conf : _render_conf_t)
    (c : xcb_connection_t) (window : window_t) (opacity_plugin : Option plugin_t) :
    xcb_connection_t × window_t :=
  -- allocate the zeroed memory specific to the rendering backend
  let render_window : _render_window_t := window.rendering.getD ⟨0, 0⟩
  -- create the Picture of the window if it does not already exist
  let p : _render_window_t × xcb_connection_t :=
    if render_window.picture = XCB_NONE then
      let g := xcb_generate_id c
      ({ render_window with picture := g.1 },
        xcb_send g.2 (.render_create_picture g.1 window.pixmap
          (conf.pict_formats.visual_format window.visual)
          XCB_RENDER_CP_SUBWINDOW_MODE [XCB_SUBWINDOW_MODE_CLIP_BY_CHILDREN]))
    else (render_window, c)
  let window := { window with rendering := some p.1 }
  match window_opacity opacity_plugin window with
  | some opacity =>
    let a : _render_window_t × xcb_connection_t :=
      if p.1.alpha_picture = 0 then
        let r := _render_create_window_alpha_picture screen conf p.2 opacity
        ({ p.1 with alpha_picture := r.1 }, r.2)
      else p
    (xcb_send a.2 (.render_composite XCB_RENDER_PICT_OP_OVER a.1.picture
        a.1.alpha_picture conf.buffer_picture 0 0 0 0
        window.geometry.x window.geometry.y
        ((window.geometry.width + window.geometry.border_width * 2) % 65536)
        ((window.geometry.height + window.geometry.border_width * 2) % 65536)),
      { window with rendering := some a.1 })
  | none =>
    (xcb_send p.2 (.render_composite XCB_RENDER_PICT_OP_SRC p.1.picture
        XCB_NONE conf.buffer_picture 0 0 0 0
        window.geometry.x window.geometry.y
        ((window.geometry.width + window.geometry.border_width * 2) % 65536)
        ((window.geometry.height + window.geometry.border_width * 2) % 65536)),
      window)

/-- Free the Picture associated with the window Pixmap. -/
def render_free_window_pixmap (c : xcb_connection_t) (window : window_t) :
    xcb_connection_t × window_t :=
  match window.rendering with
  | some render_window =>
    (xcb_send c (.render_free_picture render_window.picture),
      { window with rendering := some { render_window with picture := XCB_NONE } })
  | none => (c, window)

/-- Free the resources allocated by the backend for the given window: the
memory of the per-window record is released with `free`, and nothing is sent
on the connection.  The source leaves the pointer dangling; the embedding
records the released record as absent. -/
def render_free_window (c : xcb_connection_t) (window : window_t) :
    xcb_connection_t × window_t :=
  (c, { window with rendering := none })

/-- Free all the resources allocated by this backend (called on dlclose). -/
def render_free (conf : _render_conf_t) (c : xcb_connection_t) : xcb_connection_t :=
  let c := xcb_send c (.render_free_picture conf.background_picture)
  let c := xcb_send c (.render_free_picture conf.picture)
  xcb_send c (.render_free_picture conf.buffer_picture)

/-! ## Vocabulary of the statements

Sequences of calls made by the host, and predicates on requests and on the
list of requests sent. -/

/-- The host calling `render_paint_window` on one window once per element of
the list, each element being what the lookup of the opacity plugin gives at
that call. -/
def paint_calls (screen : xcb_screen_t) (conf : _render_conf_t) :
    xcb_connection_t → window_t → List (Option plugin_t) →
    xcb_connection_t × window_t
  | c, w, [] => (c, w)
  | c, w, p :: ps =>
    paint_calls screen conf (render_paint_window screen conf c w p).1
      (render_paint_window screen conf c w p).2 ps

/-- A call of the host on a window that is not being destroyed. -/
inductive window_call where
  | paint (opacity_plugin : Option plugin_t)
  | free_pixmap

/-- Running a list of host calls on one window, in order. -/
def window_calls (screen : xcb_screen_t) (conf : _render_conf_t) :
    xcb_connection_t → window_t → List window_call →
    xcb_connection_t × window_t
  | c, w, [] => (c, w)
  | c, w, .paint p :: ks =>
    window_calls screen conf (render_paint_window screen conf c w p).1
      (render_paint_window screen conf c w p).2 ks
  | c, w, .free_pixmap :: ks =>
    window_calls screen conf (render_free_window_pixmap c w).1
      (render_free_window_pixmap c w).2 ks

/-- The opacity collaborator has no opinion on the window: it is absent, it
has no `window_get_opacity` hook, or the hook answers `UINT16_MAX` for the
window, whatever render state the backend keeps in it. -/
def no_opacity_opinion (opacity_plugin : Option plugin_t) (w : window_t) : Prop :=
  opacity_plugin = none ∨
  (∃ q, opacity_plugin = some q ∧ q.vtable.window_get_opacity = none) ∨
  (∃ q f, opacity_plugin = some q ∧ q.vtable.window_get_opacity = some f ∧
    ∀ r, f { w with rendering := r } % 65536 = UINT16_MAX)

/-- The opacity collaborator is present and its hook answers `v` for the
window, whatever render state the backend keeps in it. -/
def reports_opacity (opacity_plugin : Option plugin_t) (w : window_t) (v : Nat) :
    Prop :=
  ∃ q f, opacity_plugin = some q ∧ q.vtable.window_get_opacity = some f ∧
    ∀ r, f { w with rendering := r } % 65536 = v

/-- A request that creates a Picture. -/
def is_create_picture : xcb_request → Bool
  | .render_create_picture _ _ _ _ _ => true
  | _ => false

/-- A composite request. -/
def is_composite : xcb_request → Bool
  | .render_composite _ _ _ _ _ _ _ _ _ _ _ _ => true
  | _ => false

/-- A request of the set-up of an alpha mask: the creation of a Pixmap, the
creation of a Picture with the repeat attribute, or a fill. -/
def is_alpha_mask_setup : xcb_request → Bool
  | .create_pixmap _ _ _ _ _ => true
  | .render_create_picture _ _ _ value_mask _ => value_mask == XCB_RENDER_CP_REPEAT
  | .render_fill_rectangles _ _ _ _ => true
  | _ => false

/-- The Picture a request draws to, when it draws. -/
def request_dst : xcb_request → Option Nat
  | .render_composite _ _ _ dst _ _ _ _ _ _ _ _ => some dst
  | .render_fill_rectangles _ dst _ _ => some dst
  | _ => none

/-- Whether a Picture id names a live Picture after the requests of the
list: the last request creating or freeing it is a creation. -/
def picture_live (pid : Nat) : List xcb_request → Bool → Bool
  | [], live => live
  | .render_create_picture p _ _ _ _ :: rs, live =>
    picture_live pid rs (if p = pid then true else live)
  | .render_free_picture p :: rs, live =>
    picture_live pid rs (if p = pid then false else live)
  | _ :: rs, live => picture_live pid rs live

/-- The composite request of a window. -/
def window_composite (conf : _render_conf_t) (w : window_t) (op src mask : Nat) :
    xcb_request :=
  .render_composite op src mask conf.buffer_picture 0 0 0 0
    w.geometry.x w.geometry.y
    ((w.geometry.width + w.geometry.border_width * 2) % 65536)
    ((w.geometry.height + w.geometry.border_width * 2) % 65536)

/-- The request creating the base Picture of a window. -/
def window_create_picture (conf : _render_conf_t) (w : window_t) (pid : Nat) :
    xcb_request :=
  .render_create_picture pid w.pixmap (conf.pict_formats.visual_format w.visual)
    XCB_RENDER_CP_SUBWINDOW_MODE [XCB_SUBWINDOW_MODE_CLIP_BY_CHILDREN]

/-- The requests setting up an alpha mask. -/
def alpha_setup (screen : xcb_screen_t) (conf : _render_conf_t)
    (pixmap alpha opacity : Nat) : List xcb_request :=
  [.create_pixmap 8 pixmap screen.root 1 1,
   .render_create_picture alpha pixmap conf.pict_formats.standard_a8_id
     XCB_RENDER_CP_REPEAT [1],
   .render_fill_rectangles XCB_RENDER_PICT_OP_SRC alpha ⟨0, 0, 0, opacity⟩
     [⟨0, 0, 1, 1⟩],
   .free_pixmap pixmap]

/-! ## Concrete inputs -/

def screen0 : xcb_screen_t :=
  { root := 0x1a4, root_visual := 0x21, root_depth := 24,
    width_in_pixels := 1920, height_in_pixels := 1080 }

def formats0 : xcb_render_query_pict_formats_reply_t :=
  { formats_length := 3,
    find_visual_format := fun v => if v = 0x21 then some ⟨0x21, 0x46⟩ else none,
    visual_format := fun v => if v = 0x21 then 0x46 else 0x47,
    standard_a8_id := 0x25 }

def conf0 : _render_conf_t :=
  { ext := ⟨true, 139, 142⟩,
    picture := 0x400001, buffer_picture := 0x400003,
    background_picture := 0x400004,
    pict_formats := formats0, pictvisual := ⟨0x21, 0x46⟩,
    _render_version_cookie := 1, _render_pict_formats_cookie := 2 }

def conn0 : xcb_connection_t :=
  { ids := fun n => 0x400005 + n, next := 0, out := [] }

def window0 : window_t :=
  { id := 0x600007, visual := 0x21, geometry := ⟨10, 20, 300, 200, 2⟩,
    pixmap := 0x600010, rendering := none }

/-- An opacity plugin whose hook answers the same value for every window. -/
def opacity_plugin0 (v : Nat) : plugin_t := ⟨⟨some (fun _ => v)⟩⟩

/-! # Theorems -/

/-! ## Diagnostic decoder: lookups -/

theorem error_label_of_diff (conf : _render_conf_t) (c i : Nat) (hi : i ≤ 4)
    (hd : (c : Int) - (conf.ext.first_error : Int) = (i : Int)) :
    render_error_get_error_label conf c = _render_error_label[i]? := by
  have h : ¬ ((c : Int) - (conf.ext.first_error : Int) < XCB_RENDER_PICT_FORMAT ∨
      (c : Int) - (conf.ext.first_error : Int) > XCB_RENDER_GLYPH) := by
    simp only [XCB_RENDER_PICT_FORMAT, XCB_RENDER_GLYPH]; omega
  have hlen : i < _render_error_label.length := by
    simp only [_render_error_label, List.length_cons, List.length_nil]; omega
  simp only [render_error_get_error_label, dif_neg h]
  rw [List.getElem?_eq_getElem hlen]
  simp only [List.get_eq_getElem, hd, Int.toNat_ofNat]

/-- C1: the error label is decided by the signed difference d of the error
code and the first error of the extension: outside 0..4 the result is the
NULL sentinel, and d = i with i in 0..4 gives the i-th of the five labels
PictFormat, Picture, PictOp, GlyphSet, Glyph; so base + i gives label i. -/
theorem render_error_get_error_label_spec (conf : _render_conf_t) (c : Nat) :
    _render_error_label = ["PictFormat", "Picture", "PictOp", "GlyphSet", "Glyph"] ∧
    (((c : Int) - (conf.ext.first_error : Int) < 0 ∨
        4 < (c : Int) - (conf.ext.first_error : Int)) →
      render_error_get_error_label conf c = none) ∧
    (∀ i : Nat, i ≤ 4 → (c : Int) - (conf.ext.first_error : Int) = (i : Int) →
      render_error_get_error_label conf c = _render_error_label[i]? ∧
      (_render_error_label[i]?).isSome = true) ∧
    (∀ i : Nat, i ≤ 4 →
      render_error_get_error_label conf (conf.ext.first_error + i)
        = _render_error_label[i]?) := by
  refine ⟨rfl, ?_, ?_, ?_⟩
  · intro h
    have h2 : (c : Int) - (conf.ext.first_error : Int) < XCB_RENDER_PICT_FORMAT ∨
        (c : Int) - (conf.ext.first_error : Int) > XCB_RENDER_GLYPH := by
      simp only [XCB_RENDER_PICT_FORMAT, XCB_RENDER_GLYPH]; omega
    simp only [render_error_get_error_label, dif_pos h2]
  · intro i hi hd
    refine ⟨error_label_of_diff conf c i hi hd, ?_⟩
    have hlen : i < _render_error_label.length := by
      simp only [_render_error_label, List.length_cons, List.length_nil]; omega
    rw [List.getElem?_eq_getElem hlen]; rfl
  · intro i hi
    exact error_label_of_diff conf (conf.ext.first_error + i) i hi (by push_cast; omega)

/-- C2: a minor opcode within the 37-entry table gets its entry of the table,
an opcode from 37 on gets the NULL sentinel, and the table is indexed only
below its length. -/
theorem render_error_get_request_label_spec (m : Nat) :
    countof _render_request_label = 37 ∧
    (m ≤ 36 → render_error_get_request_label m = _render_request_label[m]? ∧
      (render_error_get_request_label m).isSome = true) ∧
    (37 ≤ m → render_error_get_request_label m = none) ∧
    ((render_error_get_request_label m).isSome = true ↔
      m < _render_request_label.length) := by
  have hlen : countof _render_request_label = 37 := rfl
  have hlen2 : _render_request_label.length = 37 := rfl
  refine ⟨hlen, ?_, ?_, ?_⟩
  · intro hm
    have h : m < countof _render_request_label := by rw [hlen]; omega
    have h2 : m < _render_request_label.length := h
    simp only [render_error_get_request_label, dif_pos h, Option.isSome_some,
      and_true]
    rw [List.getElem?_eq_getElem h2]
    simp only [List.get_eq_getElem]
  · intro hm
    have h : ¬ m < countof _render_request_label := by rw [hlen]; omega
    simp only [render_error_get_request_label, dif_neg h]
  · by_cases h : m < countof _render_request_label
    · have h2 : m < _render_request_label.length := h
      simp only [render_error_get_request_label, dif_pos h, Option.isSome_some, h2]
    · have h2 : ¬ m < _render_request_label.length := h
      simp [render_error_get_request_label, dif_neg h, h2]

theorem render_error_get_request_label_spec_witness :
    render_error_get_request_label 8 = _render_request_label[8]? ∧
    render_error_get_request_label 37 = none :=
  ⟨((render_error_get_request_label_spec 8).2.1 (by decide)).1,
   (render_error_get_request_label_spec 37).2.2.1 (by decide)⟩

/-- C3 as stated fails: minor opcode 3 does not get the NULL sentinel. -/
theorem request_label_3_not_unknown :
    ¬ (render_error_get_request_label 3 = none ∧
       render_error_get_request_label 4 = some "RenderCreatePicture") := by
  intro h
  have h3 : render_error_get_request_label 3 = some "Render minor 3" := rfl
  rw [h3] at h
  exact Option.noConfusion h.1

/-- C3 amended: minor opcode 3 has the placeholder entry "Render minor 3" of
the table, which is not the NULL sentinel an out-of-table opcode gets and
differs from the entry of opcode 4, RenderCreatePicture. -/
theorem request_label_3_placeholder :
    render_error_get_request_label 3 = some "Render minor 3" ∧
    render_error_get_request_label 3 ≠ none ∧
    render_error_get_request_label 3 ≠ render_error_get_request_label 37 ∧
    render_error_get_request_label 4 = some "RenderCreatePicture" ∧
    render_error_get_request_label 3 ≠ render_error_get_request_label 4 := by
  have h3 : render_error_get_request_label 3 = some "Render minor 3" := rfl
  have h4 : render_error_get_request_label 4 = some "RenderCreatePicture" := rfl
  have h37 : render_error_get_request_label 37 = none := rfl
  refine ⟨h3, ?_, ?_, h4, ?_⟩
  · rw [h3]; exact Option.some_ne_none _
  · rw [h3, h37]; exact Option.some_ne_none _
  · rw [h3, h4]; decide

/-! ## Painting windows: lemmas -/

theorem window_opacity_of_no_opinion {p : Option plugin_t} {w : window_t}
    (h : no_opacity_opinion p w) (r : Option _render_window_t) :
    window_opacity p { w with rendering := r } = none := by
  rcases h with h | ⟨q, hq, hf⟩ | ⟨q, f, hq, hf, hv⟩
  · subst h; rfl
  · subst hq; simp only [window_opacity, hf]
  · subst hq
    have := hv r
    simp only [window_opacity, hf, this, ne_eq, not_true_eq_false, ite_false, if_false]

theorem window_opacity_of_reports {p : Option plugin_t} {w : window_t} {v : Nat}
    (h : reports_opacity p w v) (hv : v ≠ UINT16_MAX) (r : Option _render_window_t) :
    window_opacity p { w with rendering := r } = some v := by
  obtain ⟨q, f, hq, hf, hr⟩ := h
  subst hq
  have := hr r
  simp only [window_opacity, hf, this, ne_eq, hv, not_false_eq_true, if_true]

theorem window_with_rendering_self {w : window_t} {rw : _render_window_t}
    (hw : w.rendering = some rw) : { w with rendering := some rw } = w := by
  cases w; simp only at hw; subst hw; rfl

theorem paint_src_of_picture (screen : xcb_screen_t) (conf : _render_conf_t)
    (c : xcb_connection_t) (w : window_t) (p : Option plugin_t)
    (rw : _render_window_t) (hw : w.rendering = some rw) (hp : rw.picture ≠ XCB_NONE)
    (ho : window_opacity p w = none) :
    render_paint_window screen conf c w p =
      ({ c with out := c.out ++
          [window_composite conf w XCB_RENDER_PICT_OP_SRC rw.picture XCB_NONE] }, w) := by
  simp only [render_paint_window, hw, Option.getD_some, hp, if_false,
    window_with_rendering_self hw, ho, xcb_send, window_composite]

theorem paint_src_of_no_picture (screen : xcb_screen_t) (conf : _render_conf_t)
    (c : xcb_connection_t) (w : window_t) (p : Option plugin_t)
    (hp : (w.rendering.getD ⟨0, 0⟩).picture = XCB_NONE)
    (ho : window_opacity p
      { w with rendering := some ⟨c.ids c.next, (w.rendering.getD ⟨0, 0⟩).alpha_picture⟩ }
        = none) :
    render_paint_window screen conf c w p =
      ({ c with next := c.next + 1, out := c.out ++
          [window_create_picture conf w (c.ids c.next),
           window_composite conf w XCB_RENDER_PICT_OP_SRC (c.ids c.next) XCB_NONE] },
       { w with rendering := some ⟨c.ids c.next, (w.rendering.getD ⟨0, 0⟩).alpha_picture⟩ })
      := by
  simp only [render_paint_window, hp, if_true, xcb_generate_id, ho, xcb_send,
    window_composite, window_create_picture, List.append_assoc, List.cons_append,
    List.nil_append]

theorem paint_over_of_picture_of_alpha (screen : xcb_screen_t) (conf : _render_conf_t)
    (c : xcb_connection_t) (w : window_t) (p : Option plugin_t) (v : Nat)
    (rw : _render_window_t) (hw : w.rendering = some rw) (hp : rw.picture ≠ XCB_NONE)
    (ha : rw.alpha_picture ≠ 0) (ho : window_opacity p w = some v) :
    render_paint_window screen conf c w p =
      ({ c with out := c.out ++
          [window_composite conf w XCB_RENDER_PICT_OP_OVER rw.picture rw.alpha_picture] },
       w) := by
  simp only [render_paint_window, hw, Option.getD_some, hp, if_false,
    window_with_rendering_self hw, ho, xcb_send, window_composite, ha]

theorem paint_over_of_no_picture_of_alpha (screen : xcb_screen_t)
    (conf : _render_conf_t) (c : xcb_connection_t) (w : window_t)
    (p : Option plugin_t) (v : Nat)
    (hp : (w.rendering.getD ⟨0, 0⟩).picture = XCB_NONE)
    (ha : (w.rendering.getD ⟨0, 0⟩).alpha_picture ≠ 0)
    (ho : window_opacity p
      { w with rendering := some ⟨c.ids c.next, (w.rendering.getD ⟨0, 0⟩).alpha_picture⟩ }
        = some v) :
    render_paint_window screen conf c w p =
      ({ c with next := c.next + 1, out := c.out ++
          [window_create_picture conf w (c.ids c.next),
           window_composite conf w XCB_RENDER_PICT_OP_OVER (c.ids c.next)
             (w.rendering.getD ⟨0, 0⟩).alpha_picture] },
       { w with rendering := some ⟨c.ids c.next, (w.rendering.getD ⟨0, 0⟩).alpha_picture⟩ })
      := by
  simp only [render_paint_window, hp, if_true, xcb_generate_id, ho, xcb_send,
    window_composite, window_create_picture, List.append_assoc, List.cons_append,
    List.nil_append, ha, if_false]

theorem paint_over_of_picture_of_no_alpha (screen : xcb_screen_t)
    (conf : _render_conf_t) (c : xcb_connection_t) (w : window_t)
    (p : Option plugin_t) (v : Nat)
    (rw : _render_window_t) (hw : w.rendering = some rw) (hp : rw.picture ≠ XCB_NONE)
    (ha : rw.alpha_picture = 0) (ho : window_opacity p w = some v) :
    render_paint_window screen conf c w p =
      ({ c with next := c.next + 2, out := c.out ++
          (alpha_setup screen conf (c.ids c.next) (c.ids (c.next + 1)) v ++
           [window_composite conf w XCB_RENDER_PICT_OP_OVER rw.picture
             (c.ids (c.next + 1))]) },
       { w with rendering := some ⟨rw.picture, c.ids (c.next + 1)⟩ }) := by
  simp only [render_paint_window, hw, Option.getD_some, hp, if_false,
    window_with_rendering_self hw, ho, xcb_send, window_composite, ha, if_true,
    _render_create_window_alpha_picture, xcb_generate_id, alpha_setup,
    List.append_assoc, List.cons_append, List.nil_append]

theorem paint_over_of_no_picture_of_no_alpha (screen : xcb_screen_t)
    (conf : _render_conf_t) (c : xcb_connection_t) (w : window_t)
    (p : Option plugin_t) (v : Nat)
    (hp : (w.rendering.getD ⟨0, 0⟩).picture = XCB_NONE)
    (ha : (w.rendering.getD ⟨0, 0⟩).alpha_picture = 0)
    (ho : window_opacity p
      { w with rendering := some ⟨c.ids c.next, (w.rendering.getD ⟨0, 0⟩).alpha_picture⟩ }
        = some v) :
    render_paint_window screen conf c w p =
      ({ c with next := c.next + 3, out := c.out ++
          (window_create_picture conf w (c.ids c.next) ::
            (alpha_setup screen conf (c.ids (c.next + 1)) (c.ids (c.next + 2)) v ++
             [window_composite conf w XCB_RENDER_PICT_OP_OVER (c.ids c.next)
               (c.ids (c.next + 2))])) },
       { w with rendering := some ⟨c.ids c.next, c.ids (c.next + 2)⟩ }) := by
  rw [ha] at ho
  simp only [render_paint_window, hp, if_true, xcb_generate_id, ho, xcb_send,
    window_composite, window_create_picture, List.append_assoc, List.cons_append,
    List.nil_append, ha, _render_create_window_alpha_picture, alpha_setup,
    Nat.add_assoc, Nat.reduceAdd]

theorem conn0_ids_ne_none : ∀ n, conn0.ids n ≠ XCB_NONE := by
  intro n
  show 0x400005 + n ≠ 0
  omega

theorem paint_calls_src (screen : xcb_screen_t) (conf : _render_conf_t)
    (w : window_t) (rw : _render_window_t) (hw : w.rendering = some rw)
    (hp : rw.picture ≠ XCB_NONE) (ps : List (Option plugin_t))
    (hps : ∀ p ∈ ps, window_opacity p w = none) (c : xcb_connection_t) :
    paint_calls screen conf c w ps =
      ({ c with out := (c.out ++ List.replicate ps.length
          (window_composite conf w XCB_RENDER_PICT_OP_SRC rw.picture XCB_NONE)) }, w) := by
  induction ps generalizing c with
  | nil => simp [paint_calls]
  | cons p ps ih =>
    have h1 := paint_src_of_picture screen conf c w p rw hw hp
      (hps p (List.mem_cons_self _ _))
    simp only [paint_calls, h1]
    rw [ih (fun q hq => hps q (List.mem_cons_of_mem _ hq))]
    simp only [List.length_cons, List.replicate_succ, List.append_assoc,
      List.singleton_append]

/-- C4: on a window without render state, with generated ids never XCB_NONE
and an opacity collaborator that is absent, lacks the hook or answers
UINT16_MAX, the first render_paint_window sends exactly the creation of the
base Picture on the Pixmap of the window followed by a composite with the
SRC operator and mask XCB_NONE; each later call under the same condition
sends exactly one such composite and nothing else. -/
theorem render_paint_window_no_opacity (screen : xcb_screen_t)
    (conf : _render_conf_t) (c : xcb_connection_t) (w : window_t)
    (p0 : Option plugin_t) (ps : List (Option plugin_t))
    (hw : w.rendering = none) (hid : ∀ n, c.ids n ≠ XCB_NONE)
    (h0 : no_opacity_opinion p0 w) (hps : ∀ p ∈ ps, no_opacity_opinion p w) :
    (render_paint_window screen conf c w p0).1.out = c.out ++
      [.render_create_picture (c.ids c.next) w.pixmap
          (conf.pict_formats.visual_format w.visual)
          XCB_RENDER_CP_SUBWINDOW_MODE [XCB_SUBWINDOW_MODE_CLIP_BY_CHILDREN],
       window_composite conf w XCB_RENDER_PICT_OP_SRC (c.ids c.next) XCB_NONE] ∧
    (render_paint_window screen conf c w p0).2.rendering
      = some ⟨c.ids c.next, XCB_NONE⟩ ∧
    (paint_calls screen conf (render_paint_window screen conf c w p0).1
        (render_paint_window screen conf c w p0).2 ps).1.out
      = (render_paint_window screen conf c w p0).1.out ++ List.replicate ps.length
          (window_composite conf w XCB_RENDER_PICT_OP_SRC (c.ids c.next) XCB_NONE) ∧
    (paint_calls screen conf (render_paint_window screen conf c w p0).1
        (render_paint_window screen conf c w p0).2 ps).2.rendering
      = some ⟨c.ids c.next, XCB_NONE⟩ := by
  have hp : (w.rendering.getD ⟨0, 0⟩).picture = XCB_NONE := by rw [hw]; rfl
  have ha : (w.rendering.getD ⟨0, 0⟩).alpha_picture = XCB_NONE := by rw [hw]; rfl
  have h1 := paint_src_of_no_picture screen conf c w p0 hp
    (window_opacity_of_no_opinion h0 _)
  rw [ha] at h1
  rw [h1]
  have h2 := paint_calls_src screen conf
    { w with rendering := some ⟨c.ids c.next, XCB_NONE⟩ } ⟨c.ids c.next, XCB_NONE⟩ rfl
    (hid c.next) ps (fun p hp => window_opacity_of_no_opinion (hps p hp) _)
  rw [h2]
  exact ⟨rfl, rfl, rfl, rfl⟩

theorem render_paint_window_no_opacity_witness :
    (render_paint_window screen0 conf0 conn0 window0 none).1.out =
      [.render_create_picture 0x400005 0x600010 0x46 256 [0],
       .render_composite 1 0x400005 0 0x400003 0 0 0 0 10 20 304 204] ∧
    (paint_calls screen0 conf0 (render_paint_window screen0 conf0 conn0 window0 none).1
        (render_paint_window screen0 conf0 conn0 window0 none).2
        [some (opacity_plugin0 65535), some ⟨⟨none⟩⟩]).1.out =
      [.render_create_picture 0x400005 0x600010 0x46 256 [0],
       .render_composite 1 0x400005 0 0x400003 0 0 0 0 10 20 304 204,
       .render_composite 1 0x400005 0 0x400003 0 0 0 0 10 20 304 204,
       .render_composite 1 0x400005 0 0x400003 0 0 0 0 10 20 304 204] :=
  have h := render_paint_window_no_opacity screen0 conf0 conn0 window0 none
    [some (opacity_plugin0 65535), some ⟨⟨none⟩⟩] rfl
    conn0_ids_ne_none (Or.inl rfl)
    (by
      intro p hp
      simp only [List.mem_cons, List.mem_singleton, List.not_mem_nil, or_false] at hp
      rcases hp with hp | hp
      · exact Or.inr (Or.inr ⟨_, _, hp, rfl, fun _ => rfl⟩)
      · exact Or.inr (Or.inl ⟨_, hp, rfl⟩))
  ⟨h.1, h.2.2.1⟩

theorem window_composite_not_alpha (conf : _render_conf_t) (w : window_t)
    (op src mask : Nat) : is_alpha_mask_setup (window_composite conf w op src mask) = false :=
  rfl

theorem window_create_picture_not_alpha (conf : _render_conf_t) (w : window_t)
    (pid : Nat) : is_alpha_mask_setup (window_create_picture conf w pid) = false :=
  rfl

/-- One render_paint_window on a window that holds an alpha mask: nothing of
an alpha-mask set-up is sent, the mask is kept, and the composite is last. -/
theorem paint_step_alpha (screen : xcb_screen_t) (conf : _render_conf_t)
    (c : xcb_connection_t) (w : window_t) (p : Option plugin_t) (pic alpha : Nat)
    (hw : w.rendering = some ⟨pic, alpha⟩) (ha : alpha ≠ 0) :
    ∃ pre op src mask,
      (render_paint_window screen conf c w p).1.out
        = c.out ++ pre ++ [window_composite conf w op src mask] ∧
      (∀ r ∈ pre, is_alpha_mask_setup r = false) ∧
      (render_paint_window screen conf c w p).2
        = { w with rendering := some ⟨src, alpha⟩ } ∧
      (∀ v, (∀ r, window_opacity p { w with rendering := r } = some v) →
        op = XCB_RENDER_PICT_OP_OVER ∧ mask = alpha) := by
  by_cases hp : pic = XCB_NONE
  · have hp2 : (w.rendering.getD ⟨0, 0⟩).picture = XCB_NONE := by rw [hw]; exact hp
    have ha2 : (w.rendering.getD ⟨0, 0⟩).alpha_picture = alpha := by rw [hw]; rfl
    cases ho : window_opacity p
        { w with rendering := some ⟨c.ids c.next, (w.rendering.getD ⟨0, 0⟩).alpha_picture⟩ } with
    | none =>
      refine ⟨[window_create_picture conf w (c.ids c.next)], XCB_RENDER_PICT_OP_SRC,
        c.ids c.next, XCB_NONE, ?_, ?_, ?_, ?_⟩
      · rw [paint_src_of_no_picture screen conf c w p hp2 ho]
        simp only [List.append_assoc, List.singleton_append]
      · intro r hr
        rw [List.mem_singleton] at hr
        subst hr; rfl
      · rw [paint_src_of_no_picture screen conf c w p hp2 ho, ha2]
      · intro v hv
        rw [hv] at ho
        exact Option.noConfusion ho
    | some v =>
      refine ⟨[window_create_picture conf w (c.ids c.next)], XCB_RENDER_PICT_OP_OVER,
        c.ids c.next, alpha, ?_, ?_, ?_, ?_⟩
      · rw [paint_over_of_no_picture_of_alpha screen conf c w p v hp2
          (by rw [ha2]; exact ha) ho, ha2]
        simp only [List.append_assoc, List.singleton_append]
      · intro r hr
        rw [List.mem_singleton] at hr
        subst hr; rfl
      · rw [paint_over_of_no_picture_of_alpha screen conf c w p v hp2
          (by rw [ha2]; exact ha) ho, ha2]
      · intro _ _; exact ⟨rfl, rfl⟩
  · cases ho : window_opacity p w with
    | none =>
      refine ⟨[], XCB_RENDER_PICT_OP_SRC, pic, XCB_NONE, ?_, ?_, ?_, ?_⟩
      · rw [paint_src_of_picture screen conf c w p _ hw hp ho]
        simp only [List.append_nil]
      · intro r hr; exact absurd hr (List.not_mem_nil r)
      · rw [paint_src_of_picture screen conf c w p _ hw hp ho]
        exact (window_with_rendering_self hw).symm
      · intro v hv
        have := hv w.rendering
        have hww : { w with rendering := w.rendering } = w := by cases w; rfl
        rw [hww, ho] at this
        exact Option.noConfusion this
    | some v =>
      refine ⟨[], XCB_RENDER_PICT_OP_OVER, pic, alpha, ?_, ?_, ?_, ?_⟩
      · rw [paint_over_of_picture_of_alpha screen conf c w p v _ hw hp ha ho]
        simp only [List.append_nil]
      · intro r hr; exact absurd hr (List.not_mem_nil r)
      · rw [paint_over_of_picture_of_alpha screen conf c w p v _ hw hp ha ho]
        exact (window_with_rendering_self hw).symm
      · intro _ _; exact ⟨rfl, rfl⟩

/-- Any sequence of paint and free-pixmap calls on a window that holds an
alpha mask sends nothing of an alpha-mask set-up and keeps the mask. -/
theorem window_calls_alpha_kept (screen : xcb_screen_t) (conf : _render_conf_t)
    (alpha : Nat) (ha : alpha ≠ 0) (ks : List window_call) :
    ∀ (c : xcb_connection_t) (w : window_t) (pic : Nat),
      w.rendering = some ⟨pic, alpha⟩ →
      ∃ issued src,
        (window_calls screen conf c w ks).1.out = c.out ++ issued ∧
        (∀ r ∈ issued, is_alpha_mask_setup r = false) ∧
        (window_calls screen conf c w ks).2 = { w with rendering := some ⟨src, alpha⟩ } := by
  induction ks with
  | nil =>
    intro c w pic hw
    exact ⟨[], pic, by simp [window_calls], fun r hr => absurd hr (List.not_mem_nil r),
      (window_with_rendering_self hw).symm⟩
  | cons k ks ih =>
    intro c w pic hw
    cases k with
    | paint p =>
      obtain ⟨pre, op, src, mask, hout, hpre, hwin, -⟩ :=
        paint_step_alpha screen conf c w p pic alpha hw ha
      obtain ⟨issued, src2, hout2, hiss, hwin2⟩ :=
        ih (render_paint_window screen conf c w p).1
          (render_paint_window screen conf c w p).2 src (by rw [hwin])
      refine ⟨pre ++ [window_composite conf w op src mask] ++ issued, src2, ?_, ?_, ?_⟩
      · show (window_calls screen conf (render_paint_window screen conf c w p).1
          (render_paint_window screen conf c w p).2 ks).1.out = _
        rw [hout2, hout]
        simp only [List.append_assoc]
      · intro r hr
        simp only [List.mem_append, List.mem_singleton] at hr
        rcases hr with (hr | hr) | hr
        · exact hpre r hr
        · subst hr; rfl
        · exact hiss r hr
      · show (window_calls screen conf (render_paint_window screen conf c w p).1
          (render_paint_window screen conf c w p).2 ks).2 = _
        rw [hwin2, hwin]
    | free_pixmap =>
      have hf : render_free_window_pixmap c w =
          ({ c with out := c.out ++ [.render_free_picture pic] },
           { w with rendering := some ⟨XCB_NONE, alpha⟩ }) := by
        simp only [render_free_window_pixmap, hw, xcb_send]
      obtain ⟨issued, src2, hout2, hiss, hwin2⟩ :=
        ih (render_free_window_pixmap c w).1 (render_free_window_pixmap c w).2
          XCB_NONE (by rw [hf])
      refine ⟨[.render_free_picture pic] ++ issued, src2, ?_, ?_, ?_⟩
      · show (window_calls screen conf (render_free_window_pixmap c w).1
          (render_free_window_pixmap c w).2 ks).1.out = _
        rw [hout2, hf]
        simp only [List.append_assoc]
      · intro r hr
        simp only [List.mem_append, List.mem_singleton] at hr
        rcases hr with hr | hr
        · subst hr; rfl
        · exact hiss r hr
      · show (window_calls screen conf (render_free_window_pixmap c w).1
          (render_free_window_pixmap c w).2 ks).2 = _
        rw [hwin2, hf]

/-- The first render_paint_window with an opacity opinion on a window that
has no alpha mask: the alpha mask is set up once, and the composite uses the
OVER operator with it. -/
theorem paint_first_opacity (screen : xcb_screen_t) (conf : _render_conf_t)
    (c : xcb_connection_t) (w : window_t) (p0 : Option plugin_t) (v : Nat)
    (hid : ∀ n, c.ids n ≠ XCB_NONE)
    (halpha : (w.rendering.getD ⟨0, 0⟩).alpha_picture = 0)
    (hv : v ≠ UINT16_MAX) (h0 : reports_opacity p0 w v) :
    ∃ pre pixmap alpha src,
      (render_paint_window screen conf c w p0).1.out = c.out ++ pre ++
        alpha_setup screen conf pixmap alpha v ++
        [window_composite conf w XCB_RENDER_PICT_OP_OVER src alpha] ∧
      (∀ r ∈ pre, is_alpha_mask_setup r = false) ∧
      alpha ≠ XCB_NONE ∧
      (render_paint_window screen conf c w p0).2
        = { w with rendering := some ⟨src, alpha⟩ } := by
  by_cases hp : (w.rendering.getD ⟨0, 0⟩).picture = XCB_NONE
  · have h := paint_over_of_no_picture_of_no_alpha screen conf c w p0 v hp halpha
      (window_opacity_of_reports h0 hv _)
    refine ⟨[window_create_picture conf w (c.ids c.next)], c.ids (c.next + 1),
      c.ids (c.next + 2), c.ids c.next, ?_, ?_, hid _, ?_⟩
    · rw [h]
      simp only [List.append_assoc, List.singleton_append, List.cons_append,
        List.nil_append]
    · intro r hr
      rw [List.mem_singleton] at hr
      subst hr; rfl
    · rw [h]
  · cases hw : w.rendering with
    | none => rw [hw] at hp; exact absurd rfl hp
    | some rw =>
      rw [hw] at hp halpha
      have hww : { w with rendering := w.rendering } = w := by cases w; rfl
      have ho : window_opacity p0 w = some v := by
        have := window_opacity_of_reports h0 hv w.rendering
        rwa [hww] at this
      have h := paint_over_of_picture_of_no_alpha screen conf c w p0 v rw hw hp halpha ho
      refine ⟨[], c.ids c.next, c.ids (c.next + 1), rw.picture, ?_, ?_, hid _, ?_⟩
      · rw [h]
        simp only [List.append_nil, List.append_assoc]
      · intro r hr; exact absurd hr (List.not_mem_nil r)
      · rw [h]

/-- C5: with generated ids never XCB_NONE and an opacity v below 65535 (so
in particular for 0 < v < 65535) reported for a window without alpha mask, render_paint_window sets up exactly
one 1x1 alpha-mask Picture filled with alpha v and composites with the OVER
operator and that mask; whatever paint and free-pixmap calls follow, nothing
of an alpha-mask set-up is sent again, the window keeps the mask handle, and
a later call under a reported opacity v1, equal to v or not, composites with
OVER and the same mask handle. -/
theorem render_paint_window_opacity (screen : xcb_screen_t)
    (conf : _render_conf_t) (c : xcb_connection_t) (w : window_t)
    (p0 : Option plugin_t) (v : Nat) (ks : List window_call)
    (p1 : Option plugin_t) (v1 : Nat)
    (hid : ∀ n, c.ids n ≠ XCB_NONE)
    (halpha : (w.rendering.getD ⟨0, 0⟩).alpha_picture = 0)
    (hv : v < 65535) (h0 : reports_opacity p0 w v)
    (hv1 : v1 < 65535) (h1 : reports_opacity p1 w v1) :
    ∃ pre pixmap alpha src,
      (render_paint_window screen conf c w p0).1.out = c.out ++ pre ++
        [.create_pixmap 8 pixmap screen.root 1 1,
         .render_create_picture alpha pixmap conf.pict_formats.standard_a8_id
           XCB_RENDER_CP_REPEAT [1],
         .render_fill_rectangles XCB_RENDER_PICT_OP_SRC alpha ⟨0, 0, 0, v⟩
           [⟨0, 0, 1, 1⟩],
         .free_pixmap pixmap,
         window_composite conf w XCB_RENDER_PICT_OP_OVER src alpha] ∧
      (∀ r ∈ pre, is_alpha_mask_setup r = false) ∧
      alpha ≠ XCB_NONE ∧
      (render_paint_window screen conf c w p0).2.rendering = some ⟨src, alpha⟩ ∧
      (∃ issued src1,
        (window_calls screen conf (render_paint_window screen conf c w p0).1
          (render_paint_window screen conf c w p0).2 ks).1.out
          = (render_paint_window screen conf c w p0).1.out ++ issued ∧
        (∀ r ∈ issued, is_alpha_mask_setup r = false) ∧
        (window_calls screen conf (render_paint_window screen conf c w p0).1
          (render_paint_window screen conf c w p0).2 ks).2.rendering
          = some ⟨src1, alpha⟩) ∧
      (∃ pre2 src2,
        (render_paint_window screen conf
          (window_calls screen conf (render_paint_window screen conf c w p0).1
            (render_paint_window screen conf c w p0).2 ks).1
          (window_calls screen conf (render_paint_window screen conf c w p0).1
            (render_paint_window screen conf c w p0).2 ks).2 p1).1.out
          = (window_calls screen conf (render_paint_window screen conf c w p0).1
              (render_paint_window screen conf c w p0).2 ks).1.out ++ pre2 ++
            [window_composite conf w XCB_RENDER_PICT_OP_OVER src2 alpha] ∧
        (∀ r ∈ pre2, is_alpha_mask_setup r = false)) := by
  have hvne : v ≠ UINT16_MAX := Nat.ne_of_lt hv
  have hv1ne : v1 ≠ UINT16_MAX := Nat.ne_of_lt hv1
  obtain ⟨pre, pixmap, alpha, src, hout, hpre, hane, hwin⟩ :=
    paint_first_opacity screen conf c w p0 v hid halpha hvne h0
  obtain ⟨issued, src1, hmout, hiss, hmwin⟩ :=
    window_calls_alpha_kept screen conf alpha hane ks
      (render_paint_window screen conf c w p0).1
      (render_paint_window screen conf c w p0).2 src (by rw [hwin])
  have hmwin : (window_calls screen conf (render_paint_window screen conf c w p0).1
      (render_paint_window screen conf c w p0).2 ks).2
        = { w with rendering := some ⟨src1, alpha⟩ } := hmwin.trans (by rw [hwin])
  obtain ⟨pre2, op, src2, mask, hlout, hpre2, -, hop⟩ :=
    paint_step_alpha screen conf
      (window_calls screen conf (render_paint_window screen conf c w p0).1
        (render_paint_window screen conf c w p0).2 ks).1
      (window_calls screen conf (render_paint_window screen conf c w p0).1
        (render_paint_window screen conf c w p0).2 ks).2 p1 src1 alpha
      (by rw [hmwin]) hane
  have hop2 := hop v1 (by
    intro r
    rw [hmwin]
    exact window_opacity_of_reports h1 hv1ne r)
  refine ⟨pre, pixmap, alpha, src, ?_, hpre, hane, by rw [hwin], ⟨issued, src1, hmout, hiss, by rw [hmwin]⟩,
    ⟨pre2, src2, ?_, hpre2⟩⟩
  · rw [hout]
    simp only [alpha_setup, List.append_assoc, List.cons_append, List.nil_append]
  · rw [hlout, hop2.1, hop2.2, hmwin]
    rfl

theorem render_paint_window_opacity_witness :
    (render_paint_window screen0 conf0 conn0 window0
        (some (opacity_plugin0 0x8000))).1.out =
      [.render_create_picture 0x400005 0x600010 0x46 256 [0],
       .create_pixmap 8 0x400006 0x1a4 1 1,
       .render_create_picture 0x400007 0x400006 0x25 1 [1],
       .render_fill_rectangles 1 0x400007 ⟨0, 0, 0, 0x8000⟩ [⟨0, 0, 1, 1⟩],
       .free_pixmap 0x400006,
       .render_composite 3 0x400005 0x400007 0x400003 0 0 0 0 10 20 304 204] ∧
    ∃ alpha pre2 src2, alpha ≠ XCB_NONE ∧
      (render_paint_window screen0 conf0 conn0 window0
        (some (opacity_plugin0 0x8000))).2.rendering.map (fun r => r.alpha_picture)
        = some alpha ∧
      (render_paint_window screen0 conf0
        (window_calls screen0 conf0
          (render_paint_window screen0 conf0 conn0 window0
            (some (opacity_plugin0 0x8000))).1
          (render_paint_window screen0 conf0 conn0 window0
            (some (opacity_plugin0 0x8000))).2
          [.paint none, .free_pixmap]).1
        (window_calls screen0 conf0
          (render_paint_window screen0 conf0 conn0 window0
            (some (opacity_plugin0 0x8000))).1
          (render_paint_window screen0 conf0 conn0 window0
            (some (opacity_plugin0 0x8000))).2
          [.paint none, .free_pixmap]).2
        (some (opacity_plugin0 0x4000))).1.out
      = (window_calls screen0 conf0
          (render_paint_window screen0 conf0 conn0 window0
            (some (opacity_plugin0 0x8000))).1
          (render_paint_window screen0 conf0 conn0 window0
            (some (opacity_plugin0 0x8000))).2
          [.paint none, .free_pixmap]).1.out ++ pre2 ++
        [window_composite conf0 window0 XCB_RENDER_PICT_OP_OVER src2 alpha] := by
  refine ⟨rfl, ?_⟩
  obtain ⟨_, _, alpha, _, _, _, hane, hwin, _, ⟨pre2, src2, hlast, _⟩⟩ :=
    render_paint_window_opacity screen0 conf0 conn0 window0
      (some (opacity_plugin0 0x8000)) 0x8000 [.paint none, .free_pixmap]
      (some (opacity_plugin0 0x4000)) 0x4000 conn0_ids_ne_none rfl (by decide)
      ⟨_, _, rfl, rfl, fun _ => rfl⟩ (by decide) ⟨_, _, rfl, rfl, fun _ => rfl⟩
  exact ⟨alpha, pre2, src2, hane, by rw [hwin]; rfl, hlast⟩

theorem rendering_some_of_picture {w : window_t}
    (hp : ¬ (w.rendering.getD ⟨0, 0⟩).picture = XCB_NONE) :
    ∃ rw, w.rendering = some rw ∧ rw.picture ≠ XCB_NONE := by
  cases hw : w.rendering with
  | none => rw [hw] at hp; exact absurd rfl hp
  | some rw => rw [hw] at hp; exact ⟨rw, rfl, hp⟩

/-- The requests of one render_paint_window end with the composite of the
window, and no other composite is among them. -/
theorem paint_out_shape (screen : xcb_screen_t) (conf : _render_conf_t)
    (c : xcb_connection_t) (w : window_t) (p : Option plugin_t) :
    ∃ pre op src mask,
      (render_paint_window screen conf c w p).1.out
        = c.out ++ pre ++ [window_composite conf w op src mask] ∧
      (∀ r ∈ pre, is_composite r = false) := by
  by_cases hp : (w.rendering.getD ⟨0, 0⟩).picture = XCB_NONE
  · cases ho : window_opacity p
        { w with rendering := some ⟨c.ids c.next, (w.rendering.getD ⟨0, 0⟩).alpha_picture⟩ } with
    | none =>
      refine ⟨[window_create_picture conf w (c.ids c.next)], XCB_RENDER_PICT_OP_SRC,
        c.ids c.next, XCB_NONE, ?_, ?_⟩
      · rw [paint_src_of_no_picture screen conf c w p hp ho]
        simp only [List.append_assoc, List.singleton_append]
      · intro r hr
        rw [List.mem_singleton] at hr
        subst hr; rfl
    | some v =>
      by_cases ha : (w.rendering.getD ⟨0, 0⟩).alpha_picture = 0
      · refine ⟨window_create_picture conf w (c.ids c.next) ::
          alpha_setup screen conf (c.ids (c.next + 1)) (c.ids (c.next + 2)) v,
          XCB_RENDER_PICT_OP_OVER, c.ids c.next, c.ids (c.next + 2), ?_, ?_⟩
        · rw [paint_over_of_no_picture_of_no_alpha screen conf c w p v hp ha ho]
          simp only [List.append_assoc, List.cons_append]
        · intro r hr
          simp only [alpha_setup, List.mem_cons, List.mem_singleton, List.not_mem_nil,
            or_false] at hr
          rcases hr with hr | hr | hr | hr | hr <;> (subst hr; rfl)
      · refine ⟨[window_create_picture conf w (c.ids c.next)], XCB_RENDER_PICT_OP_OVER,
          c.ids c.next, (w.rendering.getD ⟨0, 0⟩).alpha_picture, ?_, ?_⟩
        · rw [paint_over_of_no_picture_of_alpha screen conf c w p v hp ha ho]
          simp only [List.append_assoc, List.singleton_append]
        · intro r hr
          rw [List.mem_singleton] at hr
          subst hr; rfl
  · obtain ⟨rw, hw, hp2⟩ := rendering_some_of_picture hp
    cases ho : window_opacity p w with
    | none =>
      refine ⟨[], XCB_RENDER_PICT_OP_SRC, rw.picture, XCB_NONE, ?_,
        fun r hr => absurd hr (List.not_mem_nil r)⟩
      rw [paint_src_of_picture screen conf c w p rw hw hp2 ho]
      simp only [List.append_nil]
    | some v =>
      by_cases ha : rw.alpha_picture = 0
      · refine ⟨alpha_setup screen conf (c.ids c.next) (c.ids (c.next + 1)) v,
          XCB_RENDER_PICT_OP_OVER, rw.picture, c.ids (c.next + 1), ?_, ?_⟩
        · rw [paint_over_of_picture_of_no_alpha screen conf c w p v rw hw hp2 ha ho]
          simp only [List.append_assoc]
        · intro r hr
          simp only [alpha_setup, List.mem_cons, List.mem_singleton, List.not_mem_nil,
            or_false] at hr
          rcases hr with hr | hr | hr | hr <;> (subst hr; rfl)
      · refine ⟨[], XCB_RENDER_PICT_OP_OVER, rw.picture, rw.alpha_picture, ?_,
          fun r hr => absurd hr (List.not_mem_nil r)⟩
        rw [paint_over_of_picture_of_alpha screen conf c w p v rw hw hp2 ha ho]
        simp only [List.append_nil]

/-- C6: the composite request of render_paint_window is the last request it
sends and the only composite among them; its source and mask origin are
(0, 0), its destination is the buffer Picture at offset (x, y), and its size
is width + 2 * border_width by height + 2 * border_width reduced modulo
2^16, which is the sum itself whenever the sum is below 65536. -/
theorem render_paint_window_composite_geometry (screen : xcb_screen_t)
    (conf : _render_conf_t) (c : xcb_connection_t) (w : window_t)
    (p : Option plugin_t) :
    ∃ pre op src mask width height,
      (render_paint_window screen conf c w p).1.out = c.out ++ pre ++
        [.render_composite op src mask conf.buffer_picture 0 0 0 0
          w.geometry.x w.geometry.y width height] ∧
      (∀ r ∈ pre, is_composite r = false) ∧
      width = (w.geometry.width + 2 * w.geometry.border_width) % 65536 ∧
      height = (w.geometry.height + 2 * w.geometry.border_width) % 65536 ∧
      (w.geometry.width + 2 * w.geometry.border_width < 65536 →
        width = w.geometry.width + 2 * w.geometry.border_width) ∧
      (w.geometry.height + 2 * w.geometry.border_width < 65536 →
        height = w.geometry.height + 2 * w.geometry.border_width) := by
  obtain ⟨pre, op, src, mask, hout, hpre⟩ := paint_out_shape screen conf c w p
  refine ⟨pre, op, src, mask, _, _, hout, hpre, ?_, ?_, ?_, ?_⟩
  · rw [Nat.mul_comm]
  · rw [Nat.mul_comm]
  · intro h; rw [Nat.mul_comm]; exact Nat.mod_eq_of_lt h
  · intro h; rw [Nat.mul_comm]; exact Nat.mod_eq_of_lt h

theorem render_paint_window_composite_geometry_witness :
    (300 + 2 * 2 < 65536 ∧ 200 + 2 * 2 < 65536) ∧
    ∃ pre op src mask,
      (render_paint_window screen0 conf0 conn0 window0 none).1.out = conn0.out ++ pre ++
        [.render_composite op src mask 0x400003 0 0 0 0 10 20 304 204] := by
  refine ⟨by decide, ?_⟩
  obtain ⟨pre, op, src, mask, width, height, hout, _, _, _, hw, hh⟩ :=
    render_paint_window_composite_geometry screen0 conf0 conn0 window0 none
  have hw2 : width = 304 := hw (by decide)
  have hh2 : height = 204 := hh (by decide)
  subst hw2 hh2
  exact ⟨pre, op, src, mask, hout⟩

/-! ## Releasing windows -/

/-- A render_paint_window on a window whose base Picture is XCB_NONE creates
the base Picture under a newly generated id and composites from it. -/
theorem paint_creates_picture (screen : xcb_screen_t) (conf : _render_conf_t)
    (c : xcb_connection_t) (w : window_t) (p : Option plugin_t)
    (hp : (w.rendering.getD ⟨0, 0⟩).picture = XCB_NONE) :
    ∃ mid op mask alpha,
      (render_paint_window screen conf c w p).1.out = c.out ++
        [window_create_picture conf w (c.ids c.next)] ++ mid ++
        [window_composite conf w op (c.ids c.next) mask] ∧
      (∀ r ∈ mid, is_composite r = false) ∧
      (render_paint_window screen conf c w p).2.rendering
        = some ⟨c.ids c.next, alpha⟩ := by
  cases ho : window_opacity p
      { w with rendering := some ⟨c.ids c.next, (w.rendering.getD ⟨0, 0⟩).alpha_picture⟩ } with
  | none =>
    refine ⟨[], XCB_RENDER_PICT_OP_SRC, XCB_NONE,
      (w.rendering.getD ⟨0, 0⟩).alpha_picture, ?_,
      fun r hr => absurd hr (List.not_mem_nil r), ?_⟩
    · rw [paint_src_of_no_picture screen conf c w p hp ho]
      simp only [List.append_assoc, List.singleton_append, List.append_nil]
    · rw [paint_src_of_no_picture screen conf c w p hp ho]
  | some v =>
    by_cases ha : (w.rendering.getD ⟨0, 0⟩).alpha_picture = 0
    · refine ⟨alpha_setup screen conf (c.ids (c.next + 1)) (c.ids (c.next + 2)) v,
        XCB_RENDER_PICT_OP_OVER, c.ids (c.next + 2), c.ids (c.next + 2), ?_, ?_, ?_⟩
      · rw [paint_over_of_no_picture_of_no_alpha screen conf c w p v hp ha ho]
        simp only [List.append_assoc, List.cons_append, List.nil_append]
      · intro r hr
        simp only [alpha_setup, List.mem_cons, List.mem_singleton, List.not_mem_nil,
          or_false] at hr
        rcases hr with hr | hr | hr | hr <;> (subst hr; rfl)
      · rw [paint_over_of_no_picture_of_no_alpha screen conf c w p v hp ha ho]
    · refine ⟨[], XCB_RENDER_PICT_OP_OVER, (w.rendering.getD ⟨0, 0⟩).alpha_picture,
        (w.rendering.getD ⟨0, 0⟩).alpha_picture, ?_,
        fun r hr => absurd hr (List.not_mem_nil r), ?_⟩
      · rw [paint_over_of_no_picture_of_alpha screen conf c w p v hp ha ho]
        simp only [List.append_assoc, List.singleton_append, List.append_nil]
      · rw [paint_over_of_no_picture_of_alpha screen conf c w p v hp ha ho]

/-- C10: on a window with render state, render_free_window_pixmap sends one
free-picture request, for the base Picture, resets the base handle to
XCB_NONE and keeps the alpha-mask handle, and the next render_paint_window
creates the base Picture again under a newly generated id and composites
from that id; on a window without render state it sends nothing and changes
nothing. -/
theorem render_free_window_pixmap_spec (screen : xcb_screen_t)
    (conf : _render_conf_t) (c : xcb_connection_t) (w : window_t)
    (p : Option plugin_t) :
    (∀ rw, w.rendering = some rw →
      render_free_window_pixmap c w =
        ({ c with out := c.out ++ [.render_free_picture rw.picture] },
         { w with rendering := some ⟨XCB_NONE, rw.alpha_picture⟩ }) ∧
      ∃ mid op mask alpha,
        (render_paint_window screen conf (render_free_window_pixmap c w).1
          (render_free_window_pixmap c w).2 p).1.out
          = (render_free_window_pixmap c w).1.out ++
            [.render_create_picture (c.ids c.next) w.pixmap
              (conf.pict_formats.visual_format w.visual)
              XCB_RENDER_CP_SUBWINDOW_MODE [XCB_SUBWINDOW_MODE_CLIP_BY_CHILDREN]] ++
            mid ++ [window_composite conf w op (c.ids c.next) mask] ∧
        (∀ r ∈ mid, is_composite r = false) ∧
        (render_paint_window screen conf (render_free_window_pixmap c w).1
          (render_free_window_pixmap c w).2 p).2.rendering
          = some ⟨c.ids c.next, alpha⟩) ∧
    (w.rendering = none → render_free_window_pixmap c w = (c, w)) := by
  constructor
  · intro rw hw
    have hf : render_free_window_pixmap c w =
        ({ c with out := c.out ++ [.render_free_picture rw.picture] },
         { w with rendering := some ⟨XCB_NONE, rw.alpha_picture⟩ }) := by
      simp only [render_free_window_pixmap, hw, xcb_send]
    refine ⟨hf, ?_⟩
    rw [hf]
    exact paint_creates_picture screen conf
      { c with out := c.out ++ [.render_free_picture rw.picture] }
      { w with rendering := some ⟨XCB_NONE, rw.alpha_picture⟩ } p rfl
  · intro hw
    simp only [render_free_window_pixmap, hw]

theorem render_free_window_pixmap_spec_witness :
    (window_calls screen0 conf0 conn0 window0 [.paint none, .free_pixmap]).1.out =
      [.render_create_picture 0x400005 0x600010 0x46 256 [0],
       .render_composite 1 0x400005 0 0x400003 0 0 0 0 10 20 304 204,
       .render_free_picture 0x400005] ∧
    (window_calls screen0 conf0 conn0 window0 [.paint none, .free_pixmap]).2.rendering
      = some ⟨0, 0⟩ ∧
    render_free_window_pixmap conn0 window0 = (conn0, window0) :=
  ⟨congrArg (fun r => r.1.out)
      (((render_free_window_pixmap_spec screen0 conf0
        (render_paint_window screen0 conf0 conn0 window0 none).1
        (render_paint_window screen0 conf0 conn0 window0 none).2 none).1
          ⟨0x400005, 0⟩ rfl).1),
   rfl,
   (render_free_window_pixmap_spec screen0 conf0 conn0 window0 none).2 rfl⟩

/-- The function render_free_window sends no request. -/
theorem render_free_window_sends_nothing (c : xcb_connection_t) (w : window_t) :
    (render_free_window c w).1 = c ∧ (render_free_window c w).2.rendering = none :=
  ⟨rfl, rfl⟩

/-- C7, the code at the failing input: a window painted once under opacity
0x8000 holds the alpha-mask Picture 0x400007; after render_free_window_pixmap
and render_free_window the only free-picture request sent is for the base
Picture 0x400005, the alpha-mask Picture is still live on the server, and the
window no longer holds its handle. -/
theorem render_free_window_leaks_alpha :
    (render_paint_window screen0 conf0 conn0 window0
      (some (opacity_plugin0 0x8000))).2.rendering = some ⟨0x400005, 0x400007⟩ ∧
    (render_free_window
      (render_free_window_pixmap
        (render_paint_window screen0 conf0 conn0 window0
          (some (opacity_plugin0 0x8000))).1
        (render_paint_window screen0 conf0 conn0 window0
          (some (opacity_plugin0 0x8000))).2).1
      (render_free_window_pixmap
        (render_paint_window screen0 conf0 conn0 window0
          (some (opacity_plugin0 0x8000))).1
        (render_paint_window screen0 conf0 conn0 window0
          (some (opacity_plugin0 0x8000))).2).2).1.out =
      [.render_create_picture 0x400005 0x600010 0x46 256 [0],
       .create_pixmap 8 0x400006 0x1a4 1 1,
       .render_create_picture 0x400007 0x400006 0x25 1 [1],
       .render_fill_rectangles 1 0x400007 ⟨0, 0, 0, 0x8000⟩ [⟨0, 0, 1, 1⟩],
       .free_pixmap 0x400006,
       .render_composite 3 0x400005 0x400007 0x400003 0 0 0 0 10 20 304 204,
       .render_free_picture 0x400005] ∧
    picture_live 0x400007
      (render_free_window
        (render_free_window_pixmap
          (render_paint_window screen0 conf0 conn0 window0
            (some (opacity_plugin0 0x8000))).1
          (render_paint_window screen0 conf0 conn0 window0
            (some (opacity_plugin0 0x8000))).2).1
        (render_free_window_pixmap
          (render_paint_window screen0 conf0 conn0 window0
            (some (opacity_plugin0 0x8000))).1
          (render_paint_window screen0 conf0 conn0 window0
            (some (opacity_plugin0 0x8000))).2).2).1.out false = true ∧
    (render_free_window
      (render_free_window_pixmap
        (render_paint_window screen0 conf0 conn0 window0
          (some (opacity_plugin0 0x8000))).1
        (render_paint_window screen0 conf0 conn0 window0
          (some (opacity_plugin0 0x8000))).2).1
      (render_free_window_pixmap
        (render_paint_window screen0 conf0 conn0 window0
          (some (opacity_plugin0 0x8000))).1
        (render_paint_window screen0 conf0 conn0 window0
          (some (opacity_plugin0 0x8000))).2).2).2.rendering = none :=
  ⟨rfl, rfl, rfl, rfl⟩

/-! ## Initialisation and background -/

theorem init_root_background_of_pixmap (screen : xcb_screen_t) (conf : _render_conf_t)
    (c : xcb_connection_t) (bg : Nat) (hbg : bg ≠ XCB_NONE) :
    _render_init_root_background screen conf c bg =
      ({ conf with background_picture := c.ids c.next },
       { c with next := c.next + 1, out := c.out ++
          [.render_create_picture (c.ids c.next) bg conf.pictvisual.format
            XCB_RENDER_CP_REPEAT [1]] }) := by
  simp only [_render_init_root_background, hbg, if_false, xcb_generate_id, xcb_send,
    decide_False, Bool.false_eq_true]

theorem init_root_background_of_none (screen : xcb_screen_t) (conf : _render_conf_t)
    (c : xcb_connection_t) :
    _render_init_root_background screen conf c XCB_NONE =
      ({ conf with background_picture := c.ids (c.next + 1) },
       { c with next := c.next + 2, out := c.out ++
          [.create_pixmap screen.root_depth (c.ids c.next) screen.root 1 1,
           .render_create_picture (c.ids (c.next + 1)) (c.ids c.next)
             conf.pictvisual.format XCB_RENDER_CP_REPEAT [1],
           .free_pixmap (c.ids c.next),
           .render_fill_rectangles XCB_RENDER_PICT_OP_SRC (c.ids (c.next + 1))
             ⟨0x8080, 0x8080, 0x8080, 0xffff⟩
             [⟨0, 0, screen.width_in_pixels, screen.height_in_pixels⟩]] }) := by
  simp only [_render_init_root_background, if_true, xcb_generate_id, xcb_send,
    window_new_root_background_pixmap, _render_root_background_fill, decide_True,
    List.append_assoc, List.cons_append, List.nil_append]

theorem picture_live_append (pid : Nat) (xs ys : List xcb_request) :
    ∀ live, picture_live pid (xs ++ ys) live
      = picture_live pid ys (picture_live pid xs live) := by
  induction xs with
  | nil => intro live; rfl
  | cons r rs ih =>
    intro live
    cases r <;> exact ih _

/-- C9: render_reset_background changes no field of the backend state but the
background handle, its first request frees the old background Picture, and,
when the ids still to be generated differ from the three handles of the
state, no request it sends draws to the root or buffer Picture, the new
handle is a newly generated id naming a live Picture while the old one is
freed, and a render_paint_background right after it composites from the new
handle onto the buffer Picture. -/
theorem render_reset_background_spec (screen : xcb_screen_t)
    (conf : _render_conf_t) (c : xcb_connection_t) (bg : Nat) :
    (render_reset_background screen conf c bg).1 =
      { conf with background_picture :=
          (render_reset_background screen conf c bg).1.background_picture } ∧
    (∃ rest, (render_reset_background screen conf c bg).2.out = c.out ++
        .render_free_picture conf.background_picture :: rest ∧
      (∀ q ∈ rest, is_composite q = false) ∧
      (∀ q ∈ rest, ∀ d, request_dst q = some d →
        d = (render_reset_background screen conf c bg).1.background_picture)) ∧
    (∃ n, c.next ≤ n ∧
      (render_reset_background screen conf c bg).1.background_picture = c.ids n) ∧
    (render_paint_background screen (render_reset_background screen conf c bg).1
        (render_reset_background screen conf c bg).2).out =
      (render_reset_background screen conf c bg).2.out ++
        [.render_composite XCB_RENDER_PICT_OP_SRC
          (render_reset_background screen conf c bg).1.background_picture XCB_NONE
          conf.buffer_picture 0 0 0 0 0 0
          screen.width_in_pixels screen.height_in_pixels] ∧
    ((∀ n, c.next ≤ n → c.ids n ≠ conf.picture ∧ c.ids n ≠ conf.buffer_picture ∧
        c.ids n ≠ conf.background_picture) →
      (∀ q, q ∈ ((render_reset_background screen conf c bg).2.out.drop c.out.length) →
        request_dst q ≠ some conf.picture ∧
        request_dst q ≠ some conf.buffer_picture) ∧
      (render_reset_background screen conf c bg).1.background_picture
        ≠ conf.background_picture ∧
      (∀ live, picture_live
        (render_reset_background screen conf c bg).1.background_picture
        (render_reset_background screen conf c bg).2.out live = true) ∧
      (∀ live, picture_live conf.background_picture
        (render_reset_background screen conf c bg).2.out live = false)) := by
  by_cases hbg : bg = XCB_NONE
  · subst hbg
    have h : render_reset_background screen conf c XCB_NONE =
        ({ conf with background_picture := c.ids (c.next + 1) },
         { c with next := c.next + 2, out := c.out ++
            [.render_free_picture conf.background_picture,
             .get_root_background_pixmap,
             .create_pixmap screen.root_depth (c.ids c.next) screen.root 1 1,
             .render_create_picture (c.ids (c.next + 1)) (c.ids c.next)
               conf.pictvisual.format XCB_RENDER_CP_REPEAT [1],
             .free_pixmap (c.ids c.next),
             .render_fill_rectangles XCB_RENDER_PICT_OP_SRC (c.ids (c.next + 1))
               ⟨0x8080, 0x8080, 0x8080, 0xffff⟩
               [⟨0, 0, screen.width_in_pixels, screen.height_in_pixels⟩]] }) := by
      simp only [render_reset_background, init_root_background_of_none,
        window_get_root_background_pixmap, xcb_send, List.append_assoc,
        List.cons_append, List.nil_append]
    rw [h]
    refine ⟨rfl, ⟨_, rfl, ?_, ?_⟩, ⟨c.next + 1, Nat.le_succ _, rfl⟩, rfl, ?_⟩
    · intro q hq
      simp only [List.mem_cons, List.mem_singleton, List.not_mem_nil, or_false] at hq
      rcases hq with hq | hq | hq | hq | hq <;> (subst hq; rfl)
    · intro q hq d hd
      simp only [List.mem_cons, List.mem_singleton, List.not_mem_nil, or_false] at hq
      rcases hq with hq | hq | hq | hq | hq <;> subst hq <;>
        simp only [request_dst, Option.some.injEq] at hd <;>
        first
          | exact hd.symm
          | exact absurd hd (by simp)
    · intro hfresh
      obtain ⟨h1, h2, h3⟩ := hfresh (c.next + 1) (Nat.le_succ _)
      refine ⟨?_, h3, ?_, ?_⟩
      · intro q hq
        simp only [List.drop_left, List.mem_cons, List.mem_singleton,
          List.not_mem_nil, or_false] at hq
        rcases hq with hq | hq | hq | hq | hq | hq <;> subst hq <;>
          simp [request_dst, h1, h2]
      · intro live
        simp [picture_live_append, picture_live]
      · intro live
        simp [picture_live_append, picture_live, h3]
  · have h : render_reset_background screen conf c bg =
        ({ conf with background_picture := c.ids c.next },
         { c with next := c.next + 1, out := c.out ++
            [.render_free_picture conf.background_picture,
             .get_root_background_pixmap,
             .render_create_picture (c.ids c.next) bg
               conf.pictvisual.format XCB_RENDER_CP_REPEAT [1]] }) := by
      simp only [render_reset_background, init_root_background_of_pixmap _ _ _ _ hbg,
        window_get_root_background_pixmap, xcb_send, List.append_assoc,
        List.cons_append, List.nil_append]
    rw [h]
    refine ⟨rfl, ⟨_, rfl, ?_, ?_⟩, ⟨c.next, Nat.le_refl _, rfl⟩, rfl, ?_⟩
    · intro q hq
      simp only [List.mem_cons, List.mem_singleton, List.not_mem_nil, or_false] at hq
      rcases hq with hq | hq <;> (subst hq; rfl)
    · intro q hq d hd
      simp only [List.mem_cons, List.mem_singleton, List.not_mem_nil, or_false] at hq
      rcases hq with hq | hq <;> subst hq <;>
        exact absurd hd (by simp [request_dst])
    · intro hfresh
      obtain ⟨h1, h2, h3⟩ := hfresh c.next (Nat.le_refl _)
      refine ⟨?_, h3, ?_, ?_⟩
      · intro q hq
        simp only [List.drop_left, List.mem_cons, List.mem_singleton,
          List.not_mem_nil, or_false] at hq
        rcases hq with hq | hq | hq <;> subst hq <;>
          simp [request_dst]
      · intro live
        simp [picture_live_append, picture_live]
      · intro live
        simp [picture_live_append, picture_live, h3]

theorem conn0_ids_fresh : ∀ n, conn0.next ≤ n →
    conn0.ids n ≠ conf0.picture ∧ conn0.ids n ≠ conf0.buffer_picture ∧
    conn0.ids n ≠ conf0.background_picture := by
  intro n _
  show 0x400005 + n ≠ 0x400001 ∧ 0x400005 + n ≠ 0x400003 ∧ 0x400005 + n ≠ 0x400004
  omega

theorem render_reset_background_spec_witness :
    (render_paint_background screen0 (render_reset_background screen0 conf0 conn0 0).1
        (render_reset_background screen0 conf0 conn0 0).2).out =
      [.render_free_picture 0x400004,
       .get_root_background_pixmap,
       .create_pixmap 24 0x400005 0x1a4 1 1,
       .render_create_picture 0x400006 0x400005 0x46 1 [1],
       .free_pixmap 0x400005,
       .render_fill_rectangles 1 0x400006 ⟨0x8080, 0x8080, 0x8080, 0xffff⟩
         [⟨0, 0, 1920, 1080⟩],
       .render_composite 1 0x400006 0 0x400003 0 0 0 0 0 0 1920 1080] ∧
    (render_reset_background screen0 conf0 conn0 0).1.background_picture ≠ 0x400004 ∧
    picture_live 0x400006 (render_reset_background screen0 conf0 conn0 0).2.out false
      = true ∧
    picture_live 0x400004 (render_reset_background screen0 conf0 conn0 0).2.out true
      = false :=
  ⟨(render_reset_background_spec screen0 conf0 conn0 0).2.2.2.1,
   ((render_reset_background_spec screen0 conf0 conn0 0).2.2.2.2 conn0_ids_fresh).2.1,
   ((render_reset_background_spec screen0 conf0 conn0 0).2.2.2.2 conn0_ids_fresh).2.2.1
      false,
   ((render_reset_background_spec screen0 conf0 conn0 0).2.2.2.2 conn0_ids_fresh).2.2.2
      true⟩

/-- The root triad: with the cookie issued, `_render_init_root_picture`
returns, and it succeeds exactly when the reply is there, lists a format and
has an entry for the root visual; on success it has created the root, buffer
and background Pictures under three generated ids. -/
theorem init_root_picture_spec (screen : xcb_screen_t) (conf : _render_conf_t)
    (c : xcb_connection_t)
    (pr : Option xcb_render_query_pict_formats_reply_t) (bg : Nat)
    (hp : conf._render_pict_formats_cookie ≠ 0) :
    ∃ ok cf cc, _render_init_root_picture screen conf c pr bg = some (ok, cf, cc) ∧
      (ok = true ↔ ∃ reply pv, pr = some reply ∧ reply.formats_length ≠ 0 ∧
        reply.find_visual_format screen.root_visual = some pv) ∧
      (ok = false → cc = c ∧ cf.picture = conf.picture ∧
        cf.buffer_picture = conf.buffer_picture ∧
        cf.background_picture = conf.background_picture) ∧
      (ok = true → ∃ pixmap bgpixmap issued,
        cc.out = c.out ++ issued ∧
        cf.picture = c.ids c.next ∧
        cf.buffer_picture = c.ids (c.next + 2) ∧
        (∃ n, c.next + 3 ≤ n ∧ cf.background_picture = c.ids n) ∧
        .render_create_picture cf.picture screen.root cf.pictvisual.format
          XCB_RENDER_CP_SUBWINDOW_MODE [XCB_SUBWINDOW_MODE_INCLUDE_INFERIORS] ∈ issued ∧
        .render_create_picture cf.buffer_picture pixmap cf.pictvisual.format 0 []
          ∈ issued ∧
        .render_create_picture cf.background_picture bgpixmap cf.pictvisual.format
          XCB_RENDER_CP_REPEAT [1] ∈ issued) := by
  cases pr with
  | none =>
    refine ⟨false, conf, c, by simp only [_render_init_root_picture, hp, if_false], ?_,
      fun _ => ⟨rfl, rfl, rfl, rfl⟩, fun h => Bool.noConfusion h⟩
    constructor
    · intro h; exact Bool.noConfusion h
    · rintro ⟨reply, pv, h, -⟩; exact Option.noConfusion h
  | some reply =>
    by_cases hl : reply.formats_length = 0
    · refine ⟨false, { conf with pict_formats := reply }, c,
        by simp only [_render_init_root_picture, hp, if_false, hl, if_true], ?_,
        fun _ => ⟨rfl, rfl, rfl, rfl⟩, fun h => Bool.noConfusion h⟩
      constructor
      · intro h; exact Bool.noConfusion h
      · rintro ⟨reply2, pv, h, hne, -⟩
        cases h
        exact absurd hl hne
    · cases hf : reply.find_visual_format screen.root_visual with
      | none =>
        refine ⟨false, { conf with pict_formats := reply }, c,
          by simp only [_render_init_root_picture, hp, if_false, hl, hf], ?_,
          fun _ => ⟨rfl, rfl, rfl, rfl⟩, fun h => Bool.noConfusion h⟩
        constructor
        · intro h; exact Bool.noConfusion h
        · rintro ⟨reply2, pv, h, -, hpv⟩
          cases h
          rw [hf] at hpv
          exact Option.noConfusion hpv
      | some pv =>
        by_cases hbg : bg = XCB_NONE
        · subst hbg
          refine ⟨true, _, _,
            by simp only [_render_init_root_picture, hp, if_false, hl, hf,
              init_root_background_of_none, xcb_generate_id, xcb_send,
              _render_paint_root_background_to_buffer,
              _render_paint_root_buffer_to_root, List.append_assoc, List.cons_append,
              List.nil_append, Nat.add_assoc, Nat.reduceAdd]; rfl,
            ⟨fun _ => ⟨reply, pv, rfl, hl, hf⟩, fun _ => rfl⟩,
            fun h => Bool.noConfusion h, ?_⟩
          intro _
          refine ⟨c.ids (c.next + 1), c.ids (c.next + 3), _, rfl, rfl, rfl,
            ⟨c.next + 4, by omega, rfl⟩, ?_, ?_, ?_⟩ <;> simp
        · refine ⟨true, _, _,
            by simp only [_render_init_root_picture, hp, if_false, hl, hf,
              init_root_background_of_pixmap _ _ _ _ hbg, xcb_generate_id, xcb_send,
              _render_paint_root_background_to_buffer,
              _render_paint_root_buffer_to_root, List.append_assoc, List.cons_append,
              List.nil_append, Nat.add_assoc, Nat.reduceAdd]; rfl,
            ⟨fun _ => ⟨reply, pv, rfl, hl, hf⟩, fun _ => rfl⟩,
            fun h => Bool.noConfusion h, ?_⟩
          intro _
          refine ⟨c.ids (c.next + 1), bg, _, rfl, rfl, rfl,
            ⟨c.next + 3, Nat.le_refl _, rfl⟩, ?_, ?_, ?_⟩ <;> simp

/-- The root triad on a usable catalog: with the cookie issued, a reply that
lists a format and has an entry for the root visual makes
`_render_init_root_picture` succeed, and the requests it sends are the
creation of the root Picture, the buffer Pixmap and Picture, the release of
that Pixmap, the requests of the background, and the two composites. -/
theorem init_root_picture_success (screen : xcb_screen_t) (conf : _render_conf_t)
    (c : xcb_connection_t) (reply : xcb_render_query_pict_formats_reply_t)
    (pv : xcb_render_pictvisual_t) (bg : Nat)
    (hp : conf._render_pict_formats_cookie ≠ 0)
    (hl : reply.formats_length ≠ 0)
    (hf : reply.find_visual_format screen.root_visual = some pv) :
    ∃ cf cc bgreqs bgpixmap,
      _render_init_root_picture screen conf c (some reply) bg = some (true, cf, cc) ∧
      cf.pictvisual = pv ∧
      cf.picture = c.ids c.next ∧
      cf.buffer_picture = c.ids (c.next + 2) ∧
      cc.out = c.out ++
        [.render_create_picture (c.ids c.next) screen.root pv.format
           XCB_RENDER_CP_SUBWINDOW_MODE [XCB_SUBWINDOW_MODE_INCLUDE_INFERIORS],
         .create_pixmap screen.root_depth (c.ids (c.next + 1)) screen.root
           screen.width_in_pixels screen.height_in_pixels,
         .render_create_picture (c.ids (c.next + 2)) (c.ids (c.next + 1)) pv.format 0 [],
         .free_pixmap (c.ids (c.next + 1))] ++ bgreqs ++
        [.render_composite XCB_RENDER_PICT_OP_SRC cf.background_picture XCB_NONE
           (c.ids (c.next + 2)) 0 0 0 0 0 0
           screen.width_in_pixels screen.height_in_pixels,
         .render_composite XCB_RENDER_PICT_OP_SRC (c.ids (c.next + 2)) XCB_NONE
           (c.ids c.next) 0 0 0 0 0 0
           screen.width_in_pixels screen.height_in_pixels] ∧
      .render_create_picture cf.background_picture bgpixmap pv.format
        XCB_RENDER_CP_REPEAT [1] ∈ bgreqs := by
  by_cases hbg : bg = XCB_NONE
  · subst hbg
    refine ⟨_, _,
      [.create_pixmap screen.root_depth (c.ids (c.next + 3)) screen.root 1 1,
       .render_create_picture (c.ids (c.next + 4)) (c.ids (c.next + 3)) pv.format
         XCB_RENDER_CP_REPEAT [1],
       .free_pixmap (c.ids (c.next + 3)),
       .render_fill_rectangles XCB_RENDER_PICT_OP_SRC (c.ids (c.next + 4))
         ⟨0x8080, 0x8080, 0x8080, 0xffff⟩
         [⟨0, 0, screen.width_in_pixels, screen.height_in_pixels⟩]],
      c.ids (c.next + 3),
      by simp only [_render_init_root_picture, hp, if_false, hl, hf,
        init_root_background_of_none, xcb_generate_id, xcb_send,
        _render_paint_root_background_to_buffer,
        _render_paint_root_buffer_to_root, List.append_assoc, List.cons_append,
        List.nil_append, Nat.add_assoc, Nat.reduceAdd]; rfl, ?_⟩
    refine ⟨rfl, rfl, rfl, ?_, ?_⟩
    · simp only [List.append_assoc, List.cons_append, List.nil_append]
    · simp
  · refine ⟨_, _,
      [.render_create_picture (c.ids (c.next + 3)) bg pv.format
         XCB_RENDER_CP_REPEAT [1]],
      bg,
      by simp only [_render_init_root_picture, hp, if_false, hl, hf,
        init_root_background_of_pixmap _ _ _ _ hbg, xcb_generate_id, xcb_send,
        _render_paint_root_background_to_buffer,
        _render_paint_root_buffer_to_root, List.append_assoc, List.cons_append,
        List.nil_append, Nat.add_assoc, Nat.reduceAdd]; rfl, ?_⟩
    refine ⟨rfl, rfl, rfl, ?_, ?_⟩
    · simp only [List.append_assoc, List.cons_append, List.nil_append]
    · simp

/-- C8: with both cookies issued, render_init_finalise returns; it returns
false exactly when the version reply is missing or has a minor revision
below 1, or else the root triad fails, which is when the format reply is
missing, lists no format or has no entry for the root visual; the major
revision plays no part; a failure on the version check sends nothing and
leaves the state as it was; when the version check passes the result is the
result of `_render_init_root_picture`; and whenever the minor revision is at
least 1 and the catalog is usable the function returns true, having sent the
creation of the root Picture, of the buffer Picture and of the background
Picture under generated ids, followed by the two composites. -/
theorem render_init_finalise_spec (screen : xcb_screen_t) (conf : _render_conf_t)
    (c : xcb_connection_t)
    (vr : Option xcb_render_query_version_reply_t)
    (pr : Option xcb_render_query_pict_formats_reply_t) (bg : Nat)
    (hv : conf._render_version_cookie ≠ 0)
    (hp : conf._render_pict_formats_cookie ≠ 0) :
    ∃ ok cf cc, render_init_finalise screen conf c vr pr bg = some (ok, cf, cc) ∧
      (ok = false ↔
        (vr = none ∨ ∃ r, vr = some r ∧ r.minor_version < 1) ∨
        ∃ cf2 cc2, _render_init_root_picture screen conf c pr bg = some (false, cf2, cc2)) ∧
      ((vr = none ∨ ∃ r, vr = some r ∧ r.minor_version < 1) →
        ok = false ∧ cf = conf ∧ cc = c) ∧
      ((∃ r, vr = some r ∧ 1 ≤ r.minor_version) →
        render_init_finalise screen conf c vr pr bg
          = _render_init_root_picture screen conf c pr bg) ∧
      (∀ major1 major2 minor,
        render_init_finalise screen conf c (some ⟨major1, minor⟩) pr bg
          = render_init_finalise screen conf c (some ⟨major2, minor⟩) pr bg) ∧
      (ok = true → ∃ pixmap bgpixmap issued,
        cc.out = c.out ++ issued ∧
        cf.picture = c.ids c.next ∧
        cf.buffer_picture = c.ids (c.next + 2) ∧
        (∃ n, c.next + 3 ≤ n ∧ cf.background_picture = c.ids n) ∧
        .render_create_picture cf.picture screen.root cf.pictvisual.format
          XCB_RENDER_CP_SUBWINDOW_MODE [XCB_SUBWINDOW_MODE_INCLUDE_INFERIORS] ∈ issued ∧
        .render_create_picture cf.buffer_picture pixmap cf.pictvisual.format 0 []
          ∈ issued ∧
        .render_create_picture cf.background_picture bgpixmap cf.pictvisual.format
          XCB_RENDER_CP_REPEAT [1] ∈ issued) ∧
      (ok = false ↔
        (vr = none ∨ ∃ r, vr = some r ∧ r.minor_version < 1) ∨
        pr = none ∨
        ∃ reply, pr = some reply ∧ (reply.formats_length = 0 ∨
          reply.find_visual_format screen.root_visual = none)) ∧
      (ok = false → cc = c ∧ cf.picture = conf.picture ∧
        cf.buffer_picture = conf.buffer_picture ∧
        cf.background_picture = conf.background_picture) ∧
      (∀ r reply pv, vr = some r → 1 ≤ r.minor_version → pr = some reply →
        reply.formats_length ≠ 0 →
        reply.find_visual_format screen.root_visual = some pv →
        ok = true ∧ cf.pictvisual = pv ∧
        cf.picture = c.ids c.next ∧ cf.buffer_picture = c.ids (c.next + 2) ∧
        ∃ bgreqs bgpixmap,
          cc.out = c.out ++
            [.render_create_picture (c.ids c.next) screen.root pv.format
               XCB_RENDER_CP_SUBWINDOW_MODE [XCB_SUBWINDOW_MODE_INCLUDE_INFERIORS],
             .create_pixmap screen.root_depth (c.ids (c.next + 1)) screen.root
               screen.width_in_pixels screen.height_in_pixels,
             .render_create_picture (c.ids (c.next + 2)) (c.ids (c.next + 1))
               pv.format 0 [],
             .free_pixmap (c.ids (c.next + 1))] ++ bgreqs ++
            [.render_composite XCB_RENDER_PICT_OP_SRC cf.background_picture XCB_NONE
               (c.ids (c.next + 2)) 0 0 0 0 0 0
               screen.width_in_pixels screen.height_in_pixels,
             .render_composite XCB_RENDER_PICT_OP_SRC (c.ids (c.next + 2)) XCB_NONE
               (c.ids c.next) 0 0 0 0 0 0
               screen.width_in_pixels screen.height_in_pixels] ∧
          .render_create_picture cf.background_picture bgpixmap pv.format
            XCB_RENDER_CP_REPEAT [1] ∈ bgreqs) := by
  have hmajor : ∀ major1 major2 minor,
      render_init_finalise screen conf c (some ⟨major1, minor⟩) pr bg
        = render_init_finalise screen conf c (some ⟨major2, minor⟩) pr bg := by
    intro major1 major2 minor
    simp only [render_init_finalise]
  obtain ⟨ok, cf, cc, hroot, hsucc, hkept, hcreated⟩ :=
    init_root_picture_spec screen conf c pr bg hp
  cases vr with
  | none =>
    refine ⟨false, conf, c, by simp only [render_init_finalise, hv, if_false], ?_,
      fun _ => ⟨rfl, rfl, rfl⟩, ?_, hmajor, fun h => Bool.noConfusion h, ?_,
      fun _ => ⟨rfl, rfl, rfl, rfl⟩, ?_⟩
    · exact ⟨fun _ => Or.inl (Or.inl rfl), fun _ => rfl⟩
    · rintro ⟨r, h, -⟩; exact Option.noConfusion h
    · exact ⟨fun _ => Or.inl (Or.inl rfl), fun _ => rfl⟩
    · intro r reply pv h; exact Option.noConfusion h
  | some r =>
    by_cases hm : r.minor_version < 1
    · refine ⟨false, conf, c,
        by simp only [render_init_finalise, hv, if_false, hm, if_true], ?_,
        fun _ => ⟨rfl, rfl, rfl⟩, ?_, hmajor, fun h => Bool.noConfusion h, ?_,
        fun _ => ⟨rfl, rfl, rfl, rfl⟩, ?_⟩
      · exact ⟨fun _ => Or.inl (Or.inr ⟨r, rfl, hm⟩), fun _ => rfl⟩
      · rintro ⟨r2, h, hge⟩
        cases h
        omega
      · exact ⟨fun _ => Or.inl (Or.inr ⟨r, rfl, hm⟩), fun _ => rfl⟩
      · intro r2 reply pv h hge
        cases h
        omega
    · have hfin : render_init_finalise screen conf c (some r) pr bg
          = _render_init_root_picture screen conf c pr bg := by
        simp only [render_init_finalise, hv, if_false, hm]
      refine ⟨ok, cf, cc, by rw [hfin, hroot], ?_, ?_, fun _ => hfin, hmajor, hcreated,
        ?_, hkept, ?_⟩
      · constructor
        · intro hok
          subst hok
          exact Or.inr ⟨cf, cc, hroot⟩
        · rintro ((h | ⟨r2, h, hlt⟩) | ⟨cf2, cc2, h⟩)
          · exact Option.noConfusion h
          · cases h
            exact absurd hlt hm
          · rw [hroot] at h
            simp only [Option.some.injEq, Prod.mk.injEq] at h
            exact h.1
      · rintro (h | ⟨r2, h, hlt⟩)
        · exact Option.noConfusion h
        · cases h
          exact absurd hlt hm
      · constructor
        · intro hok
          refine Or.inr ?_
          cases hpr : pr with
          | none => exact Or.inl rfl
          | some reply =>
            refine Or.inr ⟨reply, rfl, ?_⟩
            by_cases hl : reply.formats_length = 0
            · exact Or.inl hl
            · refine Or.inr ?_
              cases hfv : reply.find_visual_format screen.root_visual with
              | none => rfl
              | some pv =>
                have : ok = true := hsucc.2 ⟨reply, pv, hpr, hl, hfv⟩
                rw [hok] at this
                exact Bool.noConfusion this
        · intro h
          cases hok : ok with
          | false => rfl
          | true =>
            obtain ⟨reply, pv, hpr, hl, hfv⟩ := hsucc.1 hok
            rcases h with (h | ⟨r2, h, hlt⟩) | h | ⟨reply2, h, hbad⟩
            · exact Option.noConfusion h
            · cases h
              exact absurd hlt hm
            · rw [hpr] at h
              exact Option.noConfusion h
            · rw [hpr] at h
              cases h
              rcases hbad with hbad | hbad
              · exact absurd hbad hl
              · rw [hfv] at hbad
                exact Option.noConfusion hbad
      · intro r2 reply pv _ _ hpr hl hfv
        obtain ⟨cf3, cc3, bgreqs, bgpixmap, heq, hpv, hpic, hbuf, hout, hmem⟩ :=
          init_root_picture_success screen conf c reply pv bg hp hl hfv
        rw [hpr, heq] at hroot
        simp only [Option.some.injEq, Prod.mk.injEq] at hroot
        obtain ⟨hok, hcf, hcc⟩ := hroot
        subst hok hcf hcc
        exact ⟨rfl, hpv, hpic, hbuf, bgreqs, bgpixmap, hout, hmem⟩

/-- A successful render_init leaves both cookies issued. -/
theorem render_init_cookies (conf : _render_conf_t) (c : xcb_connection_t)
    (ext : Option xcb_query_extension_reply_t) (cf : _render_conf_t)
    (cc : xcb_connection_t) (h : render_init conf c ext = (true, cf, cc)) :
    cf._render_version_cookie ≠ 0 ∧ cf._render_pict_formats_cookie ≠ 0 := by
  cases ext with
  | none =>
    simp only [render_init, Prod.mk.injEq] at h
    exact absurd h.1 (by decide)
  | some e =>
    by_cases hpres : e.present = true
    · simp only [render_init, hpres, Bool.not_true, Bool.false_eq_true, if_false,
        Prod.mk.injEq, true_and, xcb_send, List.length_append, List.length_singleton,
        window_get_root_background_pixmap] at h
      obtain ⟨hcf, -⟩ := h
      subst hcf
      exact ⟨Nat.succ_ne_zero _, Nat.succ_ne_zero _⟩
    · simp only [render_init, hpres, Bool.not_false, if_true, Prod.mk.injEq] at h
      simp at hpres
      simp [hpres] at h

theorem render_init_finalise_spec_witness :
    (conf0._render_version_cookie ≠ 0 ∧ conf0._render_pict_formats_cookie ≠ 0) ∧
    (∃ cf cc, render_init_finalise screen0 conf0 conn0 (some ⟨5, 0⟩) (some formats0) 0
        = some (false, cf, cc) ∧ cc.out = []) ∧
    render_init_finalise screen0 conf0 conn0 (some ⟨0, 11⟩) (some formats0) 0
      = _render_init_root_picture screen0 conf0 conn0 (some formats0) 0 ∧
    (∃ cf cc, render_init_finalise screen0 conf0 conn0 (some ⟨0, 11⟩) (some formats0) 0
        = some (true, cf, cc) ∧
      cf.picture = 0x400005 ∧ cf.buffer_picture = 0x400007 ∧
      cf.background_picture = 0x400009 ∧
      cc.out =
        [.render_create_picture 0x400005 0x1a4 0x46 256 [1],
         .create_pixmap 24 0x400006 0x1a4 1920 1080,
         .render_create_picture 0x400007 0x400006 0x46 0 [],
         .free_pixmap 0x400006,
         .create_pixmap 24 0x400008 0x1a4 1 1,
         .render_create_picture 0x400009 0x400008 0x46 1 [1],
         .free_pixmap 0x400008,
         .render_fill_rectangles 1 0x400009 ⟨0x8080, 0x8080, 0x8080, 0xffff⟩
           [⟨0, 0, 1920, 1080⟩],
         .render_composite 1 0x400009 0 0x400007 0 0 0 0 0 0 1920 1080,
         .render_composite 1 0x400007 0 0x400005 0 0 0 0 0 0 1920 1080]) := by
  refine ⟨⟨by decide, by decide⟩, ?_, ?_, ?_⟩
  · obtain ⟨ok, cf, cc, h, -, hfail, -⟩ :=
      render_init_finalise_spec screen0 conf0 conn0 (some ⟨5, 0⟩) (some formats0) 0
        (by decide) (by decide)
    obtain ⟨hok, -, hcc⟩ := hfail (Or.inr ⟨_, rfl, by decide⟩)
    subst hok hcc
    exact ⟨cf, _, h, rfl⟩
  · obtain ⟨_, _, _, -, -, -, hpass, -⟩ :=
      render_init_finalise_spec screen0 conf0 conn0 (some ⟨0, 11⟩) (some formats0) 0
        (by decide) (by decide)
    exact hpass ⟨_, rfl, by decide⟩
  · obtain ⟨ok, cf, cc, h, -, -, -, -, -, -, -, hsucc⟩ :=
      render_init_finalise_spec screen0 conf0 conn0 (some ⟨0, 11⟩) (some formats0) 0
        (by decide) (by decide)
    obtain ⟨hok, -, hpic, hbuf, -⟩ :=
      hsucc ⟨0, 11⟩ formats0 ⟨0x21, 0x46⟩ rfl (by decide) rfl (by decide) rfl
    subst hok
    have hrfl : ∃ cf2 cc2,
        render_init_finalise screen0 conf0 conn0 (some ⟨0, 11⟩) (some formats0) 0
          = some (true, cf2, cc2) ∧ cf2.background_picture = 0x400009 ∧
        cc2.out =
          [.render_create_picture 0x400005 0x1a4 0x46 256 [1],
           .create_pixmap 24 0x400006 0x1a4 1920 1080,
           .render_create_picture 0x400007 0x400006 0x46 0 [],
           .free_pixmap 0x400006,
           .create_pixmap 24 0x400008 0x1a4 1 1,
           .render_create_picture 0x400009 0x400008 0x46 1 [1],
           .free_pixmap 0x400008,
           .render_fill_rectangles 1 0x400009 ⟨0x8080, 0x8080, 0x8080, 0xffff⟩
             [⟨0, 0, 1920, 1080⟩],
           .render_composite 1 0x400009 0 0x400007 0 0 0 0 0 0 1920 1080,
           .render_composite 1 0x400007 0 0x400005 0 0 0 0 0 0 1920 1080] :=
      ⟨_, _, rfl, rfl, rfl⟩
    obtain ⟨cf2, cc2, h2, hbgp, hout⟩ := hrfl
    rw [h] at h2
    simp only [Option.some.injEq, Prod.mk.injEq, true_and] at h2
    obtain ⟨hcf, hcc⟩ := h2
    subst hcf hcc
    exact ⟨cf, cc, h, hpic, hbuf, hbgp, hout⟩

theorem render_error_get_error_label_spec_witness :
    render_error_get_error_label conf0 144 = some "PictOp" ∧
    render_error_get_error_label conf0 (142 + 4) = some "Glyph" ∧
    render_error_get_error_label { conf0 with ext := ⟨true, 139, 254⟩ } 2 = none :=
  ⟨((render_error_get_error_label_spec conf0 144).2.2.1 2 (by decide) (by decide)).1,
   (render_error_get_error_label_spec conf0 0).2.2.2 4 (by decide),
   (render_error_get_error_label_spec { conf0 with ext := ⟨true, 139, 254⟩ } 2).2.1
     (Or.inl (by decide))⟩

end Unagi
